import Mathlib

/-!
Verification of the rss-reader storage/indexing layer.

Shallow embedding of the core of `philosophynote/rss-reader`
(`src/backend/app`): the reverse-sort-key transform, entity key/index
generation, feed ingestion with link dedup, cascade deletion, the
importance-score calculator with its LRU embedding cache, and the
validation guards of the article/cleanup services.

Python floats are modelled as rationals (`ℚ`), Python ints as `ℤ`/`ℕ`,
dictionaries as association lists, and fallible code as `Except`.
-/

namespace RssReader

instance {ε α : Type} [DecidableEq ε] [DecidableEq α] :
    DecidableEq (Except ε α) := fun x y =>
  match x, y with
  | .error e, .error f =>
    if h : e = f then isTrue (by rw [h]) else
      isFalse (by intro hh; injection hh; contradiction)
  | .error _, .ok _ => isFalse nofun
  | .ok _, .error _ => isFalse nofun
  | .ok a, .ok b =>
    if h : a = b then isTrue (by rw [h]) else
      isFalse (by intro hh; injection hh; contradiction)

/-! ## Reverse sort key (`models/base.py`, `utils/dynamodb_client.py`) -/

/-- The character for a decimal digit `d < 10`, as decimal formatting emits. -/
def decChar (d : Nat) : Char := Char.ofNat (48 + d)

/-- Most-significant-first decimal expansion of `n` on exactly `k` digit
characters.  For `n < 10 ^ k` this is the Python fixed-width zero-padded
format of `n` at width `k`. -/
def charsBE : Nat → Nat → List Char
  | 0, _ => []
  | k + 1, n => decChar (n / 10 ^ k) :: charsBE k (n % 10 ^ k)

/-- Python `f"{n:07d}"` for `0 ≤ n < 10 ^ 7` (the format is a minimum width;
every value produced by the reverse-key transform fits in 7 digits). -/
def fmt07 (n : Nat) : String := ⟨charsBE 7 n⟩

/-- Python `f"{n:06d}"` for `0 ≤ n ≤ 10 ^ 6`: six digit characters when the
value fits, seven for `n = 10 ^ 6` (minimum-width formatting never
truncates). -/
def fmt06 (n : Nat) : String :=
  if n < 10 ^ 6 then ⟨charsBE 6 n⟩ else ⟨charsBE 7 n⟩

/-- `BaseModel.SCORE_PRECISION` (src/backend/app/models/base.py). -/
def SCORE_PRECISION : Nat := 1000000

/-- `BaseModel.generate_reverse_sort_key` (src/backend/app/models/base.py
lines 62-91).  Scores are modelled as rationals; `int(score * 1_000_000)`
is `Int.floor` because under the guard the product is nonnegative, where
Python's `int()` truncation agrees with `floor`.  The reverse value is
nonnegative whenever `max_score ≤ 1` (the only configuration the
repository uses), which justifies `Int.toNat`. -/
def generate_reverse_sort_key (score : ℚ) (max_score : ℚ := 1) :
    Except String String :=
  if score < 0 ∨ max_score < score then
    Except.error "Score must be between 0 and max_score"
  else
    let score_scaled : ℤ := ⌊score * (SCORE_PRECISION : ℚ)⌋
    let reverse_score : ℤ := (SCORE_PRECISION : ℤ) - score_scaled
    Except.ok (fmt07 reverse_score.toNat ++ ".000000")

/-- `DynamoDBClient._generate_reverse_sort_key`
(src/backend/app/utils/dynamodb_client.py lines 538-558): the same guard and
arithmetic as `BaseModel.generate_reverse_sort_key`, but formatted with
`f"{reverse_score:06d}.000000"` (width 6, not 7). -/
def client_generate_reverse_sort_key (score : ℚ) (max_score : ℚ := 1) :
    Except String String :=
  if score < 0 ∨ max_score < score then
    Except.error "Score must be between 0 and max_score"
  else
    let score_scaled : ℤ := ⌊score * (SCORE_PRECISION : ℚ)⌋
    let reverse_score : ℤ := (SCORE_PRECISION : ℤ) - score_scaled
    Except.ok (fmt06 reverse_score.toNat ++ ".000000")

/-! ### Ordering facts about the padded keys -/

theorem decChar_lt_iff :
    ∀ a, a < 10 → ∀ b, b < 10 → (decChar a < decChar b ↔ a < b) := by decide

theorem charsBE_append_lt (s : List Char) :
    ∀ k n₁ n₂, n₁ < 10 ^ k → n₂ < 10 ^ k → n₁ < n₂ →
      (charsBE k n₁ ++ s) < (charsBE k n₂ ++ s) := by
  intro k
  induction k with
  | zero =>
    intro n₁ n₂ _ h₂ h
    simp only [pow_zero, Nat.lt_one_iff] at h₂
    omega
  | succ k ih =>
    intro n₁ n₂ h₁ h₂ h
    have hP : 0 < 10 ^ k := Nat.pos_pow_of_pos k (by norm_num)
    have hd₁ : n₁ / 10 ^ k < 10 := by
      apply (Nat.div_lt_iff_lt_mul hP).mpr
      calc n₁ < 10 ^ (k + 1) := h₁
        _ = 10 * 10 ^ k := by ring
    have hd₂ : n₂ / 10 ^ k < 10 := by
      apply (Nat.div_lt_iff_lt_mul hP).mpr
      calc n₂ < 10 ^ (k + 1) := h₂
        _ = 10 * 10 ^ k := by ring
    simp only [charsBE, List.cons_append]
    rcases Nat.lt_trichotomy (n₁ / 10 ^ k) (n₂ / 10 ^ k) with h' | h' | h'
    · exact List.Lex.rel ((decChar_lt_iff _ hd₁ _ hd₂).mpr h')
    · rw [h']
      refine List.Lex.cons ?_
      apply ih
      · exact Nat.mod_lt _ hP
      · exact Nat.mod_lt _ hP
      · have e₁ := Nat.div_add_mod n₁ (10 ^ k)
        have e₂ := Nat.div_add_mod n₂ (10 ^ k)
        rw [← e₁, ← e₂, h'] at h
        exact Nat.lt_of_add_lt_add_left h
    · exfalso
      have hle : 10 ^ k * (n₂ / 10 ^ k + 1) ≤ 10 ^ k * (n₁ / 10 ^ k) :=
        Nat.mul_le_mul_left _ (Nat.succ_le_of_lt h')
      have hn₂ : n₂ < 10 ^ k * (n₂ / 10 ^ k + 1) := by
        rw [Nat.mul_succ]
        calc n₂ = 10 ^ k * (n₂ / 10 ^ k) + n₂ % 10 ^ k := (Nat.div_add_mod n₂ _).symm
          _ < 10 ^ k * (n₂ / 10 ^ k) + 10 ^ k :=
            Nat.add_lt_add_left (Nat.mod_lt _ hP) _
      have hn₁ : 10 ^ k * (n₁ / 10 ^ k) ≤ n₁ := by
        calc 10 ^ k * (n₁ / 10 ^ k) ≤ 10 ^ k * (n₁ / 10 ^ k) + n₁ % 10 ^ k :=
            Nat.le_add_right _ _
          _ = n₁ := Nat.div_add_mod n₁ _
      have : n₂ < n₁ := lt_of_lt_of_le hn₂ (le_trans hle hn₁)
      omega

theorem fmt07_key_lt {r₁ r₂ : ℕ} (h : r₁ < r₂) (h₂ : r₂ < 10 ^ 7) :
    fmt07 r₁ ++ ".000000" < fmt07 r₂ ++ ".000000" := by
  have h₁ : r₁ < 10 ^ 7 := lt_trans h h₂
  have base := charsBE_append_lt (".000000".toList) 7 r₁ r₂ h₁ h₂ h
  rw [String.lt_iff_toList_lt]
  have e : ∀ n : ℕ, (fmt07 n ++ ".000000").toList = charsBE 7 n ++ ".000000".toList :=
    fun _ => rfl
  rw [e, e]
  exact base

/-- C1 (amended): reverse-sort-key monotonicity.  For scores `s₂ < s₁` in
`[0, 1]` both calls succeed and `key s₁ ≤ key s₂` lexicographically, with
strict `key s₁ < key s₂` exactly when the scaled integers
`⌊s * 1_000_000⌋` differ, and identical keys when the scaled integers
coincide.  (The original claim's unconditional strict `<` fails; see the
counterexample.) -/
theorem reverse_sort_key_monotonicity (s₁ s₂ : ℚ)
    (h0 : 0 ≤ s₂) (hlt : s₂ < s₁) (h1 : s₁ ≤ 1) :
    ∃ k₁ k₂ : String,
      generate_reverse_sort_key s₁ 1 = Except.ok k₁ ∧
      generate_reverse_sort_key s₂ 1 = Except.ok k₂ ∧
      (k₁ < k₂ ∨ k₁ = k₂) ∧
      (⌊s₂ * (SCORE_PRECISION : ℚ)⌋ < ⌊s₁ * (SCORE_PRECISION : ℚ)⌋ → k₁ < k₂) ∧
      (⌊s₁ * (SCORE_PRECISION : ℚ)⌋ = ⌊s₂ * (SCORE_PRECISION : ℚ)⌋ → k₁ = k₂) := by
  have h0₁ : (0:ℚ) ≤ s₁ := le_trans h0 hlt.le
  have h1₂ : s₂ ≤ 1 := le_trans hlt.le h1
  have g₁ : ¬ (s₁ < 0 ∨ (1:ℚ) < s₁) := by push_neg; exact ⟨h0₁, h1⟩
  have g₂ : ¬ (s₂ < 0 ∨ (1:ℚ) < s₂) := by push_neg; exact ⟨h0, h1₂⟩
  have hSP : ((SCORE_PRECISION : ℕ) : ℤ) = 1000000 := by norm_num [SCORE_PRECISION]
  have hm : ⌊s₂ * (SCORE_PRECISION : ℚ)⌋ ≤ ⌊s₁ * (SCORE_PRECISION : ℚ)⌋ := by
    apply Int.floor_le_floor
    exact mul_le_mul_of_nonneg_right hlt.le (by positivity)
  have hlb : 0 ≤ ⌊s₂ * (SCORE_PRECISION : ℚ)⌋ :=
    Int.floor_nonneg.mpr (by positivity)
  have hub : ⌊s₁ * (SCORE_PRECISION : ℚ)⌋ ≤ ((SCORE_PRECISION : ℕ) : ℤ) := by
    have hle : s₁ * (SCORE_PRECISION : ℚ) ≤ ((SCORE_PRECISION : ℕ) : ℚ) :=
      mul_le_of_le_one_left (by positivity) h1
    calc ⌊s₁ * (SCORE_PRECISION : ℚ)⌋ ≤ ⌊((SCORE_PRECISION : ℕ) : ℚ)⌋ :=
        Int.floor_le_floor hle
      _ = ((SCORE_PRECISION : ℕ) : ℤ) := Int.floor_natCast _
  rw [generate_reverse_sort_key, if_neg g₁, generate_reverse_sort_key, if_neg g₂]
  refine ⟨_, _, rfl, rfl, ?_, ?_, ?_⟩
  · rcases lt_or_eq_of_le hm with hc | hc
    · left
      refine fmt07_key_lt ?_ ?_ <;> omega
    · right
      rw [hc]
  · intro hc
    refine fmt07_key_lt ?_ ?_ <;> omega
  · intro hc
    rw [hc]

/-- Witness for `reverse_sort_key_monotonicity` at `s₁ = 1`, `s₂ = 0`. -/
theorem reverse_sort_key_monotonicity_witness :
    (0:ℚ) ≤ 0 ∧ (0:ℚ) < 1 ∧ (1:ℚ) ≤ 1 ∧
    (∃ k₁ k₂ : String,
      generate_reverse_sort_key 1 1 = Except.ok k₁ ∧
      generate_reverse_sort_key 0 1 = Except.ok k₂ ∧
      (k₁ < k₂ ∨ k₁ = k₂) ∧
      (⌊(0:ℚ) * (SCORE_PRECISION : ℚ)⌋ < ⌊(1:ℚ) * (SCORE_PRECISION : ℚ)⌋ → k₁ < k₂) ∧
      (⌊(1:ℚ) * (SCORE_PRECISION : ℚ)⌋ = ⌊(0:ℚ) * (SCORE_PRECISION : ℚ)⌋ → k₁ = k₂)) :=
  ⟨by decide, by decide, by decide,
    reverse_sort_key_monotonicity 1 0 (by decide) (by decide) (by decide)⟩

/-- C1 counterexample: the scores `3e-7 > 1e-7` lie in `[0, 1]` and are
distinct, yet both scale to `⌊s * 1_000_000⌋ = 0` and produce the identical
key `"1000000.000000"`, so the claimed unconditional strict inequality
`key(s1) < key(s2)` is false. -/
theorem reverse_sort_key_strict_lt_fails :
    ((1:ℚ)/10000000 < (3:ℚ)/10000000) ∧
    generate_reverse_sort_key ((3:ℚ)/10000000) 1 = Except.ok "1000000.000000" ∧
    generate_reverse_sort_key ((1:ℚ)/10000000) 1 = Except.ok "1000000.000000" ∧
    ¬ (("1000000.000000" : String) < "1000000.000000") := by
  refine ⟨by norm_num, ?_, ?_, lt_irrefl _⟩
  · rw [generate_reverse_sort_key]
    norm_num [SCORE_PRECISION]
    decide
  · rw [generate_reverse_sort_key]
    norm_num [SCORE_PRECISION]
    decide

/-- C3: the spec's worked scenario.  `generate_reverse_sort_key` maps score
`0.85` to `"0150000.000000"`, `1.0` to `"0000000.000000"` and `0.0` to
`"1000000.000000"`.  (On these inputs Python's float computation
`int(score * 1_000_000)` agrees with the exact rational floor: `0.85`'s
nearest double times `10^6` rounds to exactly `850000.0`.) -/
theorem reverse_sort_key_worked_scenarios :
    generate_reverse_sort_key ((85:ℚ)/100) 1 = Except.ok "0150000.000000" ∧
    generate_reverse_sort_key 1 1 = Except.ok "0000000.000000" ∧
    generate_reverse_sort_key 0 1 = Except.ok "1000000.000000" := by
  refine ⟨?_, ?_, ?_⟩ <;>
    · rw [generate_reverse_sort_key]
      norm_num [SCORE_PRECISION]
      decide

/-- C2 counterexample: at score `0.85` the model formats the reverse value
`150000` at width 7 (`"0150000.000000"`) while the client formats it at
width 6 (`"150000.000000"`), so the two implementations do not return the
same string. -/
theorem reverse_sort_key_impls_disagree :
    generate_reverse_sort_key ((85:ℚ)/100) 1 = Except.ok "0150000.000000" ∧
    client_generate_reverse_sort_key ((85:ℚ)/100) 1 = Except.ok "150000.000000" ∧
    ("0150000.000000" : String) ≠ "150000.000000" := by
  refine ⟨?_, ?_, by decide⟩
  · rw [generate_reverse_sort_key]
    norm_num [SCORE_PRECISION]
    decide
  · rw [client_generate_reverse_sort_key]
    norm_num [SCORE_PRECISION]
    decide

/-- C2 (amended): the two reverse-sort-key implementations compute the same
reverse integer `1_000_000 - ⌊score * 1_000_000⌋` but format it at
different widths — `BaseModel` pads to 7 digits, `DynamoDBClient` to 6 —
so the strings coincide exactly when the scaled score is `0` (reverse value
`1_000_000`), and otherwise the model's key is the client's key with one
extra leading zero. -/
theorem reverse_sort_key_impls_relation (s : ℚ) (h0 : 0 ≤ s) (h1 : s ≤ 1) :
    ∃ r : ℕ,
      generate_reverse_sort_key s 1 = Except.ok (fmt07 r ++ ".000000") ∧
      client_generate_reverse_sort_key s 1 = Except.ok (fmt06 r ++ ".000000") ∧
      (r : ℤ) = (SCORE_PRECISION : ℕ) - ⌊s * (SCORE_PRECISION : ℚ)⌋ ∧
      (⌊s * (SCORE_PRECISION : ℚ)⌋ = 0 → fmt06 r = fmt07 r) ∧
      (0 < ⌊s * (SCORE_PRECISION : ℚ)⌋ →
        (fmt07 r).toList = '0' :: (fmt06 r).toList) := by
  have g : ¬ (s < 0 ∨ (1:ℚ) < s) := by push_neg; exact ⟨h0, h1⟩
  have hSP : ((SCORE_PRECISION : ℕ) : ℤ) = 1000000 := by norm_num [SCORE_PRECISION]
  have hlb : 0 ≤ ⌊s * (SCORE_PRECISION : ℚ)⌋ :=
    Int.floor_nonneg.mpr (by positivity)
  have hub : ⌊s * (SCORE_PRECISION : ℚ)⌋ ≤ ((SCORE_PRECISION : ℕ) : ℤ) := by
    have hle : s * (SCORE_PRECISION : ℚ) ≤ ((SCORE_PRECISION : ℕ) : ℚ) :=
      mul_le_of_le_one_left (by positivity) h1
    calc ⌊s * (SCORE_PRECISION : ℚ)⌋ ≤ ⌊((SCORE_PRECISION : ℕ) : ℚ)⌋ :=
        Int.floor_le_floor hle
      _ = ((SCORE_PRECISION : ℕ) : ℤ) := Int.floor_natCast _
  rw [generate_reverse_sort_key, if_neg g, client_generate_reverse_sort_key, if_neg g]
  refine ⟨((SCORE_PRECISION : ℤ) - ⌊s * (SCORE_PRECISION : ℚ)⌋).toNat,
    rfl, rfl, by omega, ?_, ?_⟩
  · intro hc
    have hr : ¬ ((SCORE_PRECISION : ℤ) - ⌊s * (SCORE_PRECISION : ℚ)⌋).toNat < 10 ^ 6 := by
      omega
    rw [fmt06, if_neg hr, fmt07]
  · intro hc
    have hr : ((SCORE_PRECISION : ℤ) - ⌊s * (SCORE_PRECISION : ℚ)⌋).toNat < 10 ^ 6 := by
      omega
    have hdiv : ((SCORE_PRECISION : ℤ) - ⌊s * (SCORE_PRECISION : ℚ)⌋).toNat / 10 ^ 6 = 0 :=
      Nat.div_eq_of_lt hr
    have hmod :
        ((SCORE_PRECISION : ℤ) - ⌊s * (SCORE_PRECISION : ℚ)⌋).toNat % 10 ^ 6
          = ((SCORE_PRECISION : ℤ) - ⌊s * (SCORE_PRECISION : ℚ)⌋).toNat :=
      Nat.mod_eq_of_lt hr
    simp only [fmt06, fmt07, if_pos hr, charsBE, hdiv, hmod]
    rfl

/-- Witness for `reverse_sort_key_impls_relation` at score `0`. -/
theorem reverse_sort_key_impls_relation_witness :
    (0:ℚ) ≤ 0 ∧ (0:ℚ) ≤ 1 ∧
    (∃ r : ℕ,
      generate_reverse_sort_key 0 1 = Except.ok (fmt07 r ++ ".000000") ∧
      client_generate_reverse_sort_key 0 1 = Except.ok (fmt06 r ++ ".000000") ∧
      (r : ℤ) = (SCORE_PRECISION : ℕ) - ⌊(0:ℚ) * (SCORE_PRECISION : ℚ)⌋ ∧
      (⌊(0:ℚ) * (SCORE_PRECISION : ℚ)⌋ = 0 → fmt06 r = fmt07 r) ∧
      (0 < ⌊(0:ℚ) * (SCORE_PRECISION : ℚ)⌋ →
        (fmt07 r).toList = '0' :: (fmt06 r).toList)) :=
  ⟨by decide, by decide, reverse_sort_key_impls_relation 0 (by decide) (by decide)⟩

/-! ## Article model (`models/article.py`) -/

/-- DynamoDB attribute values as they appear in the dicts produced by
`to_dynamodb_item`: strings (including ISO-formatted datetimes and URLs),
booleans, floats, ints, and Python `None`. -/
inductive AttrVal : Type
  | s (v : String)
  | b (v : Bool)
  | q (v : ℚ)
  | i (v : ℤ)
  | null
  deriving DecidableEq

/-- Python `item[k] = v` on an association-list dict: replace in place when
the key exists (dicts keep the original position), append otherwise. -/
def setk : List (String × AttrVal) → String → AttrVal → List (String × AttrVal)
  | [], k, v => [(k, v)]
  | (k', v') :: rest, k, v =>
    if k' = k then (k', v) :: rest else (k', v') :: setk rest k v

/-- `"k" in item` / presence of an attribute. -/
def hasAttr (item : List (String × AttrVal)) (k : String) : Bool :=
  (item.lookup k).isSome

/-- The `Article` pydantic model (src/backend/app/models/article.py).
Datetimes are modelled as the strings `isoformat()` would return (without
the `"Z"` suffix that `to_dynamodb_item` appends); the `link` `HttpUrl` is
modelled as its string form.  The field validators constrain `title`,
`content` and `importance_score`; articles built by validated construction
satisfy `0 ≤ importance_score ≤ 1`. -/
structure Article where
  article_id : String
  feed_id : String
  link : String
  title : String
  content : String
  published_at : String
  is_read : Bool
  is_saved : Bool
  importance_score : ℚ
  read_at : Option String
  ttl : Option ℤ
  created_at : String
  updated_at : Option String
  deriving DecidableEq

/-- The else-branch of `generate_reverse_sort_key` as a total function; for
`0 ≤ score ≤ 1` (guaranteed by the `importance_score` validator) it is the
value `generate_reverse_sort_key` returns. -/
def reverse_sort_key_raw (score : ℚ) : String :=
  fmt07 ((SCORE_PRECISION : ℤ) - ⌊score * (SCORE_PRECISION : ℚ)⌋).toNat ++ ".000000"

theorem generate_reverse_sort_key_eq_raw (score : ℚ) (h0 : 0 ≤ score) (h1 : score ≤ 1) :
    generate_reverse_sort_key score 1 = Except.ok (reverse_sort_key_raw score) := by
  rw [generate_reverse_sort_key, if_neg (by push_neg; exact ⟨h0, h1⟩)]
  rfl

def Article.generate_pk (a : Article) : String := "ARTICLE#" ++ a.article_id

def Article.generate_sk (_ : Article) : String := "METADATA"

def Article.generate_gsi1_pk (_ : Article) : String := "ARTICLE"

def Article.generate_gsi1_sk (a : Article) : String := a.published_at ++ "Z"

def Article.generate_gsi2_pk (_ : Article) : String := "ARTICLE"

def Article.generate_gsi2_sk (a : Article) : String :=
  reverse_sort_key_raw a.importance_score

def Article.generate_gsi3_pk (_ : Article) : String := "ARTICLE"

def Article.generate_gsi3_sk (a : Article) : String := a.created_at ++ "Z"

/-- `"ARTICLE_READ" if self.is_read else None`. -/
def Article.generate_gsi4_pk (a : Article) : Option String :=
  if a.is_read then some "ARTICLE_READ" else none

/-- `f"true#{self.read_at.isoformat()}Z"` when `is_read` and `read_at` are
both set, `None` otherwise. -/
def Article.generate_gsi4_sk (a : Article) : Option String :=
  if a.is_read then a.read_at.map (fun t => "true#" ++ t ++ "Z") else none

def Article.generate_gsi5_pk (a : Article) : String := "FEED#" ++ a.feed_id

def Article.generate_gsi5_sk (a : Article) : String := "ARTICLE#" ++ a.article_id

/-- `BaseModel.to_dynamodb_item`: `model_dump()` with datetimes converted
to ISO strings with a trailing `"Z"`.  Pydantic dumps fields in declaration
order: the base-class fields `SCORE_PRECISION`, `created_at`, `updated_at`
first, then the `Article` fields. -/
def Article.base_item (a : Article) : List (String × AttrVal) :=
  [("SCORE_PRECISION", .i 1000000),
   ("created_at", .s (a.created_at ++ "Z")),
   ("updated_at", match a.updated_at with | some t => .s (t ++ "Z") | none => .null),
   ("article_id", .s a.article_id),
   ("feed_id", .s a.feed_id),
   ("link", .s a.link),
   ("title", .s a.title),
   ("content", .s a.content),
   ("published_at", .s (a.published_at ++ "Z")),
   ("is_read", .b a.is_read),
   ("is_saved", .b a.is_saved),
   ("importance_score", .q a.importance_score),
   ("read_at", match a.read_at with | some t => .s (t ++ "Z") | none => .null),
   ("ttl", match a.ttl with | some n => .i n | none => .null)]

/-- `Article.to_dynamodb_item` (src/backend/app/models/article.py lines
224-264).  `ttl_now` stands for the timestamp `set_ttl_for_article` would
compute from the current time; Python's `if not self.ttl` is true for both
`None` and `0`.  GSI4 is added only when both `generate_gsi4_pk` and
`generate_gsi4_sk` return a value (the strings are never empty, so Python
truthiness coincides with `Option.isSome`); the `link` attribute is already
a string in this model, so `str(item['link'])` is the identity. -/
def Article.to_dynamodb_item (a : Article) (ttl_now : ℤ) : List (String × AttrVal) :=
  let item := a.base_item
  let item := setk item "PK" (.s a.generate_pk)
  let item := setk item "SK" (.s a.generate_sk)
  let item := setk item "EntityType" (.s "Article")
  let item := setk item "GSI1PK" (.s a.generate_gsi1_pk)
  let item := setk item "GSI1SK" (.s a.generate_gsi1_sk)
  let item := setk item "GSI2PK" (.s a.generate_gsi2_pk)
  let item := setk item "GSI2SK" (.s a.generate_gsi2_sk)
  let item := setk item "GSI3PK" (.s a.generate_gsi3_pk)
  let item := setk item "GSI3SK" (.s a.generate_gsi3_sk)
  let item := setk item "GSI5PK" (.s a.generate_gsi5_pk)
  let item := setk item "GSI5SK" (.s a.generate_gsi5_sk)
  let item := match a.generate_gsi4_pk, a.generate_gsi4_sk with
    | some pk4, some sk4 => setk (setk item "GSI4PK" (.s pk4)) "GSI4SK" (.s sk4)
    | _, _ => item
  match a.ttl with
  | some t => if t = 0 then setk item "ttl" (.i ttl_now) else item
  | none => setk item "ttl" (.i ttl_now)

/-- `Article.mark_as_read`: a no-op when already read, otherwise sets
`is_read`, stamps `read_at` and `updated_at` with the current time. -/
def Article.mark_as_read (a : Article) (now : String) : Article :=
  if a.is_read then a
  else { a with is_read := true, read_at := some now, updated_at := some now }

/-- `Article.mark_as_unread`: a no-op when already unread, otherwise clears
`is_read` and `read_at` and stamps `updated_at`. -/
def Article.mark_as_unread (a : Article) (now : String) : Article :=
  if a.is_read then
    { a with is_read := false, read_at := none, updated_at := some now }
  else a

theorem lookup_setk_self (k : String) (v : AttrVal) :
    ∀ item, (setk item k v).lookup k = some v := by
  intro item
  induction item with
  | nil => simp [setk]
  | cons p rest ih =>
    obtain ⟨k', v'⟩ := p
    by_cases h : k' = k
    · subst h; simp [setk]
    · simp [setk, h, ih, List.lookup, show (k == k') = false from
        beq_eq_false_iff_ne.mpr (Ne.symm h)]

theorem lookup_setk_ne (k k' : String) (v : AttrVal) (h : k' ≠ k) :
    ∀ item, (setk item k v).lookup k' = item.lookup k' := by
  intro item
  induction item with
  | nil =>
    simp [setk, List.lookup, show (k' == k) = false from beq_eq_false_iff_ne.mpr h]
  | cons p rest ih =>
    obtain ⟨k'', v''⟩ := p
    by_cases h2 : k'' = k
    · subst h2
      simp [setk, List.lookup, show (k' == k'') = false from beq_eq_false_iff_ne.mpr h]
    · simp only [setk, if_neg h2, List.lookup, ih]

theorem lookup_ttl_step (ottl : Option ℤ) (ttl_now : ℤ)
    (item : List (String × AttrVal)) (k : String) (hk : k ≠ "ttl") :
    (match ottl with
     | some t => if t = 0 then setk item "ttl" (.i ttl_now) else item
     | none => setk item "ttl" (.i ttl_now)).lookup k = item.lookup k := by
  rcases ottl with _ | t
  · exact lookup_setk_ne _ _ _ hk _
  · by_cases ht : t = 0 <;> simp [ht, lookup_setk_ne _ _ _ hk]

theorem lookup_gsi4_of_item (a : Article) (ttl_now : ℤ) :
    (a.to_dynamodb_item ttl_now).lookup "GSI4PK"
      = (match a.generate_gsi4_pk, a.generate_gsi4_sk with
         | some pk4, some _ => some (AttrVal.s pk4)
         | _, _ => none) ∧
    (a.to_dynamodb_item ttl_now).lookup "GSI4SK"
      = (match a.generate_gsi4_pk, a.generate_gsi4_sk with
         | some _, some sk4 => some (AttrVal.s sk4)
         | _, _ => none) := by
  simp only [Article.to_dynamodb_item]
  rw [lookup_ttl_step _ _ _ _ (by decide), lookup_ttl_step _ _ _ _ (by decide)]
  rcases hp : a.generate_gsi4_pk with _ | pk4 <;>
    rcases hs : a.generate_gsi4_sk with _ | sk4 <;>
      constructor <;>
        · simp only [hp, hs]
          simp only [lookup_setk_ne, lookup_setk_self, ne_eq, String.reduceEq,
            not_false_eq_true]
          try simp [Article.base_item, List.lookup]

/-- C4 (amended): sparse read-index invariant.  The item written by
`Article.to_dynamodb_item` carries the `GSI4PK`/`GSI4SK` attributes iff
`is_read` is true *and* `read_at` is set (for an article with
`is_read = true` but `read_at = None` the code omits the projection, which
is where the claim's plain "iff is_read" fails); when `is_read` is false
neither attribute is present at all, and `mark_as_read` followed by a write
re-creates the projection with the read timestamp embedded in `GSI4SK`. -/
theorem read_index_sparse (a : Article) (ttl_now : ℤ) (now : String) :
    (hasAttr (a.to_dynamodb_item ttl_now) "GSI4PK"
        = (a.is_read && a.read_at.isSome)) ∧
    (hasAttr (a.to_dynamodb_item ttl_now) "GSI4SK"
        = (a.is_read && a.read_at.isSome)) ∧
    (a.is_read = false →
      hasAttr (a.to_dynamodb_item ttl_now) "GSI4PK" = false ∧
      hasAttr (a.to_dynamodb_item ttl_now) "GSI4SK" = false) ∧
    (a.is_read = false →
      ((a.mark_as_read now).to_dynamodb_item ttl_now).lookup "GSI4SK"
        = some (.s ("true#" ++ now ++ "Z"))) := by
  obtain ⟨e1, e2⟩ := lookup_gsi4_of_item a ttl_now
  refine ⟨?_, ?_, ?_, ?_⟩
  · rw [hasAttr, e1]
    cases hr : a.is_read <;> cases hra : a.read_at <;>
      simp [Article.generate_gsi4_pk, Article.generate_gsi4_sk, hr, hra]
  · rw [hasAttr, e2]
    cases hr : a.is_read <;> cases hra : a.read_at <;>
      simp [Article.generate_gsi4_pk, Article.generate_gsi4_sk, hr, hra]
  · intro hr
    constructor
    · rw [hasAttr, e1]
      simp [Article.generate_gsi4_pk, hr]
    · rw [hasAttr, e2]
      simp [Article.generate_gsi4_pk, hr]
  · intro hr
    obtain ⟨_, e2'⟩ := lookup_gsi4_of_item (a.mark_as_read now) ttl_now
    rw [e2']
    simp [Article.mark_as_read, hr, Article.generate_gsi4_pk, Article.generate_gsi4_sk]

/-- A concrete article in the state `is_read = true`, `read_at = None`
(constructible, since the two fields are independent in the model). -/
def readNoTimestampArticle : Article :=
  { article_id := "a1", feed_id := "f1", link := "https://example.com/x",
    title := "t", content := "", published_at := "2024-01-01T00:00:00",
    is_read := true, is_saved := false, importance_score := 0,
    read_at := none, ttl := some 1, created_at := "2024-01-01T00:00:00",
    updated_at := none }

/-- C4 counterexample: an article with `is_read = true` but `read_at = None`
produces an item with *no* `GSI4PK`/`GSI4SK` attribute, because
`generate_gsi4_sk` also requires `read_at`; so "GSI4 present iff is_read"
is false as stated. -/
theorem read_index_sparse_counterexample :
    readNoTimestampArticle.is_read = true ∧
    hasAttr (readNoTimestampArticle.to_dynamodb_item 0) "GSI4PK" = false ∧
    hasAttr (readNoTimestampArticle.to_dynamodb_item 0) "GSI4SK" = false := by
  refine ⟨rfl, ?_, ?_⟩ <;> decide

/-- Witness for `read_index_sparse` at a concrete unread article. -/
theorem read_index_sparse_witness :
    (hasAttr ((Article.mk "a2" "f1" "https://example.com/y" "t" "" "2024-01-01T00:00:00"
          false false 0 none (some 1) "2024-01-01T00:00:00" none).to_dynamodb_item 0)
        "GSI4PK"
      = ((Article.mk "a2" "f1" "https://example.com/y" "t" "" "2024-01-01T00:00:00"
          false false 0 none (some 1) "2024-01-01T00:00:00" none).is_read
          && (Article.mk "a2" "f1" "https://example.com/y" "t" "" "2024-01-01T00:00:00"
          false false 0 none (some 1) "2024-01-01T00:00:00" none).read_at.isSome)) ∧
    (hasAttr ((Article.mk "a2" "f1" "https://example.com/y" "t" "" "2024-01-01T00:00:00"
          false false 0 none (some 1) "2024-01-01T00:00:00" none).to_dynamodb_item 0)
        "GSI4SK"
      = ((Article.mk "a2" "f1" "https://example.com/y" "t" "" "2024-01-01T00:00:00"
          false false 0 none (some 1) "2024-01-01T00:00:00" none).is_read
          && (Article.mk "a2" "f1" "https://example.com/y" "t" "" "2024-01-01T00:00:00"
          false false 0 none (some 1) "2024-01-01T00:00:00" none).read_at.isSome)) ∧
    ((Article.mk "a2" "f1" "https://example.com/y" "t" "" "2024-01-01T00:00:00"
          false false 0 none (some 1) "2024-01-01T00:00:00" none).is_read = false →
      hasAttr ((Article.mk "a2" "f1" "https://example.com/y" "t" "" "2024-01-01T00:00:00"
          false false 0 none (some 1) "2024-01-01T00:00:00" none).to_dynamodb_item 0)
          "GSI4PK" = false ∧
      hasAttr ((Article.mk "a2" "f1" "https://example.com/y" "t" "" "2024-01-01T00:00:00"
          false false 0 none (some 1) "2024-01-01T00:00:00" none).to_dynamodb_item 0)
          "GSI4SK" = false) ∧
    ((Article.mk "a2" "f1" "https://example.com/y" "t" "" "2024-01-01T00:00:00"
          false false 0 none (some 1) "2024-01-01T00:00:00" none).is_read = false →
      (((Article.mk "a2" "f1" "https://example.com/y" "t" "" "2024-01-01T00:00:00"
          false false 0 none (some 1) "2024-01-01T00:00:00" none).mark_as_read
            "2024-01-02T00:00:00").to_dynamodb_item 0).lookup "GSI4SK"
        = some (.s ("true#" ++ "2024-01-02T00:00:00" ++ "Z"))) :=
  read_index_sparse
    (Article.mk "a2" "f1" "https://example.com/y" "t" "" "2024-01-01T00:00:00"
      false false 0 none (some 1) "2024-01-01T00:00:00" none) 0 "2024-01-02T00:00:00"

/-! ## Importance score service (`services/importance_score_service.py`)

The Bedrock embedding call (`get_embedding`) is the out-of-scope boundary:
it is modelled as an opaque function `embed : String → V`, and
`calculate_similarity` (sklearn cosine similarity) as an opaque
`sim : V → V → ℚ`.  The keyword-embedding `OrderedDict` cache is an
association list whose head is the oldest (least recently promoted) entry
and whose tail is the newest, exactly the iteration order of an
`OrderedDict` under `move_to_end`. -/

section Scoring

variable {V : Type}

/-- `OrderedDict.move_to_end(key)`: move the (unique) entry for `key` to the
newest end.  Only called right after a successful lookup; for a key that is
absent (where Python would raise `KeyError`) it is the identity. -/
def move_to_end (c : List (String × V)) (k : String) : List (String × V) :=
  match c.lookup k with
  | some v => c.filter (fun p => p.1 != k) ++ [(k, v)]
  | none => c

/-- `ImportanceScoreService._evict_oldest_cache_entry` (lines 123-137):
when the cache has reached `cap` entries, pop the first (= oldest) one.
For `cap ≥ 1` the guard implies the dict is nonempty, so dropping the head
is exactly `self._keyword_embedding_cache.pop(next(iter(...)))`. -/
def evict_oldest_cache_entry (cap : ℕ) (c : List (String × V)) :
    List (String × V) :=
  if cap ≤ c.length then c.drop 1 else c

/-- `ImportanceScoreService.get_keyword_embedding` (lines 139-186) under
sequential execution: first cache check (hit ⇒ promote and return), on a
miss compute the embedding, re-check (the double-checked-locking step —
with explicit sequential state the cache is unchanged, so it misses
again), evict the oldest entry if at capacity, insert at the newest end. -/
def get_keyword_embedding (embed : String → V) (cap : ℕ)
    (c : List (String × V)) (k : String) : V × List (String × V) :=
  match c.lookup k with
  | some v => (v, move_to_end c k)
  | none =>
    let e := embed k
    match c.lookup k with
    | some v => (v, move_to_end c k)
    | none => (e, evict_oldest_cache_entry cap c ++ [(k, e)])

/-- Folding a sequence of `get_keyword_embedding` calls over the cache. -/
def runCache (embed : String → V) (cap : ℕ) (c : List (String × V))
    (ks : List String) : List (String × V) :=
  ks.foldl (fun c k => (get_keyword_embedding embed cap c k).2) c

/-- Well-formedness: an `OrderedDict` has pairwise-distinct keys. -/
def CacheWF (c : List (String × V)) : Prop := (c.map Prod.fst).Nodup

/-- Every cached value is the embedding of its key (true of every reachable
cache state, since only `embed k` is ever inserted under `k`). -/
def CacheConsistent (embed : String → V) (c : List (String × V)) : Prop :=
  ∀ p ∈ c, p.2 = embed p.1

theorem lookup_none_append {c₁ c₂ : List (String × V)} {k : String}
    (h₁ : c₁.lookup k = none) (h₂ : c₂.lookup k = none) :
    (c₁ ++ c₂).lookup k = none := by
  induction c₁ with
  | nil => simpa using h₂
  | cons p rest ih =>
    obtain ⟨k', v'⟩ := p
    by_cases hk : k = k'
    · simp [List.lookup, hk] at h₁
    · simp only [List.lookup, show (k == k') = false from beq_eq_false_iff_ne.mpr hk,
        List.cons_append] at h₁ ⊢
      exact ih h₁

theorem lookup_filter_ne_none {c : List (String × V)} {k : String} :
    (c.filter (fun p => p.1 != k)).lookup k = none := by
  induction c with
  | nil => simp
  | cons p rest ih =>
    obtain ⟨k', v'⟩ := p
    by_cases hk : k' = k
    · simp [List.filter, hk, ih]
    · simp only [List.filter, show (k' != k) = true from bne_iff_ne.mpr hk,
        List.lookup, show (k == k') = false from beq_eq_false_iff_ne.mpr (Ne.symm hk)]
      exact ih

theorem lookup_mem {c : List (String × V)} {k : String} {v : V}
    (h : c.lookup k = some v) : (k, v) ∈ c := by
  induction c with
  | nil => simp [List.lookup] at h
  | cons p rest ih =>
    obtain ⟨k', v'⟩ := p
    by_cases hk : k = k'
    · subst hk
      simp only [List.lookup, beq_self_eq_true, Option.some.injEq] at h
      subst h
      exact List.mem_cons_self _ _
    · simp only [List.lookup, show (k == k') = false from beq_eq_false_iff_ne.mpr hk] at h
      exact List.mem_cons_of_mem _ (ih h)

theorem lookup_none_iff_not_mem_keys {c : List (String × V)} {k : String} :
    c.lookup k = none ↔ k ∉ c.map Prod.fst := by
  induction c with
  | nil => simp
  | cons p rest ih =>
    obtain ⟨k', v'⟩ := p
    by_cases hk : k = k'
    · subst hk
      simp [List.lookup]
    · simp only [List.lookup, show (k == k') = false from beq_eq_false_iff_ne.mpr hk,
        List.map_cons, List.mem_cons, not_or, ih]
      tauto

theorem lookup_none_of_not_mem_keys {c : List (String × V)} {k : String}
    (h : k ∉ c.map Prod.fst) : c.lookup k = none := by
  induction c with
  | nil => simp
  | cons p rest ih =>
    obtain ⟨k', v'⟩ := p
    simp only [List.map_cons, List.mem_cons, not_or] at h
    simp only [List.lookup, show (k == k') = false from beq_eq_false_iff_ne.mpr h.1]
    exact ih h.2

theorem filter_ne_of_lookup_none {c : List (String × V)} {k : String}
    (h : c.lookup k = none) : c.filter (fun p => p.1 != k) = c := by
  induction c with
  | nil => simp
  | cons p rest ih =>
    obtain ⟨k', v'⟩ := p
    by_cases hk : k = k'
    · simp [List.lookup, hk] at h
    · simp only [List.lookup, show (k == k') = false from beq_eq_false_iff_ne.mpr hk] at h
      simp only [List.filter,
        show (k' != k) = true from bne_iff_ne.mpr (Ne.symm hk), ih h]

theorem filter_ne_length_of_lookup {c : List (String × V)} {k : String} {v : V}
    (hwf : CacheWF c) (h : c.lookup k = some v) :
    (c.filter (fun p => p.1 != k)).length + 1 = c.length := by
  induction c with
  | nil => simp [List.lookup] at h
  | cons p rest ih =>
    obtain ⟨k', v'⟩ := p
    rw [CacheWF, List.map_cons, List.nodup_cons] at hwf
    by_cases hk : k = k'
    · subst hk
      have hrest : rest.lookup k = none := lookup_none_of_not_mem_keys hwf.1
      simp [List.filter, filter_ne_of_lookup_none hrest]
    · simp only [List.lookup, show (k == k') = false from beq_eq_false_iff_ne.mpr hk] at h
      simp only [List.filter, show (k' != k) = true from bne_iff_ne.mpr (Ne.symm hk),
        List.length_cons]
      have := ih hwf.2 h
      omega

theorem move_to_end_wf {c : List (String × V)} {k : String}
    (hwf : CacheWF c) : CacheWF (move_to_end c k) := by
  rw [move_to_end]
  rcases h : c.lookup k with _ | v
  · exact hwf
  · rw [CacheWF, List.map_append, List.map_cons, List.map_nil]
    apply List.Nodup.append
    · exact List.Nodup.sublist ((List.filter_sublist c).map Prod.fst) hwf
    · simp
    · intro x hx hx'
      simp only [List.mem_singleton] at hx'
      subst hx'
      obtain ⟨⟨k', v'⟩, hmem, hfst⟩ := List.mem_map.mp hx
      have := List.of_mem_filter hmem
      simp only [bne_iff_ne] at this
      exact this (by simpa using hfst)

theorem get_keyword_embedding_hit (embed : String → V) (cap : ℕ)
    {c : List (String × V)} {k : String} {v : V} (h : c.lookup k = some v) :
    get_keyword_embedding embed cap c k
      = (v, c.filter (fun p => p.1 != k) ++ [(k, v)]) := by
  rw [get_keyword_embedding, h, move_to_end, h]

theorem get_keyword_embedding_miss (embed : String → V) (cap : ℕ)
    {c : List (String × V)} {k : String} (h : c.lookup k = none) :
    get_keyword_embedding embed cap c k
      = (embed k, evict_oldest_cache_entry cap c ++ [(k, embed k)]) := by
  rw [get_keyword_embedding, h]

theorem get_keyword_embedding_length (embed : String → V) (cap : ℕ)
    (hcap : 1 ≤ cap) {c : List (String × V)} (k : String)
    (hwf : CacheWF c) (hlen : c.length ≤ cap) :
    (get_keyword_embedding embed cap c k).2.length ≤ cap := by
  rcases h : c.lookup k with _ | v
  · rw [get_keyword_embedding_miss embed cap h, evict_oldest_cache_entry]
    by_cases hc : cap ≤ c.length
    · simp only [if_pos hc, List.length_append, List.length_drop]
      simp only [List.length_singleton]
      omega
    · simp only [if_neg hc, List.length_append, List.length_singleton]
      omega
  · rw [get_keyword_embedding_hit embed cap h]
    have := filter_ne_length_of_lookup hwf h
    simp only [List.length_append, List.length_singleton]
    omega

theorem get_keyword_embedding_wf (embed : String → V) (cap : ℕ)
    {c : List (String × V)} (k : String) (hwf : CacheWF c) :
    CacheWF (get_keyword_embedding embed cap c k).2 := by
  rcases h : c.lookup k with _ | v
  · rw [get_keyword_embedding_miss embed cap h]
    have hsub : List.Sublist (evict_oldest_cache_entry cap c) c := by
      rw [evict_oldest_cache_entry]
      split
      · exact List.drop_sublist 1 c
      · exact List.Sublist.refl c
    rw [CacheWF, List.map_append, List.map_cons, List.map_nil]
    apply List.Nodup.append
    · exact List.Nodup.sublist (hsub.map Prod.fst) hwf
    · simp
    · intro x hx hx'
      simp only [List.mem_singleton] at hx'
      have hk : k ∉ c.map Prod.fst := lookup_none_iff_not_mem_keys.mp h
      rw [hx'] at hx
      exact hk ((hsub.map Prod.fst).subset hx)
  · rw [get_keyword_embedding_hit embed cap h]
    have := move_to_end_wf (k := k) hwf
    rw [move_to_end, h] at this
    exact this

theorem get_keyword_embedding_consistent (embed : String → V) (cap : ℕ)
    {c : List (String × V)} (k : String) (hcon : CacheConsistent embed c) :
    (get_keyword_embedding embed cap c k).1 = embed k ∧
    CacheConsistent embed (get_keyword_embedding embed cap c k).2 := by
  rcases h : c.lookup k with _ | v
  · rw [get_keyword_embedding_miss embed cap h]
    refine ⟨rfl, ?_⟩
    intro p hp
    rcases List.mem_append.mp hp with hp' | hp'
    · apply hcon
      revert hp'
      rw [evict_oldest_cache_entry]
      split
      · exact fun hm => List.mem_of_mem_drop hm
      · exact id
    · simp only [List.mem_singleton] at hp'
      subst hp'
      rfl
  · rw [get_keyword_embedding_hit embed cap h]
    have hv : v = embed k := hcon _ (lookup_mem h)
    refine ⟨hv, ?_⟩
    intro p hp
    rcases List.mem_append.mp hp with hp' | hp'
    · exact hcon _ (List.mem_of_mem_filter hp')
    · simp only [List.mem_singleton] at hp'
      subst hp'
      exact hv

theorem map_fst_pair (f : String → V) (l : List String) :
    (l.map (fun k => (k, f k))).map Prod.fst = l := by
  induction l with
  | nil => rfl
  | cons a l ih => simp [ih]

theorem runCache_fresh (embed : String → V) (cap : ℕ) :
    ∀ (ks : List String) (c : List (String × V)), ks.Nodup →
      (∀ k ∈ ks, c.lookup k = none) → c.length + ks.length ≤ cap →
      runCache embed cap c ks = c ++ ks.map (fun k => (k, embed k)) := by
  intro ks
  induction ks with
  | nil => simp [runCache]
  | cons k rest ih =>
    intro c hnd hfresh hlen
    rw [runCache, List.foldl_cons,
      get_keyword_embedding_miss embed cap (hfresh k (List.mem_cons_self k rest)),
      evict_oldest_cache_entry,
      if_neg (by simp only [List.length_cons] at hlen; omega)]
    rw [List.nodup_cons] at hnd
    have hfresh' : ∀ k' ∈ rest, (c ++ [(k, embed k)]).lookup k' = none := by
      intro k' hk'
      refine lookup_none_append (hfresh k' (List.mem_cons_of_mem _ hk')) ?_
      have : k' ≠ k := fun he => hnd.1 (he ▸ hk')
      simp [List.lookup, show (k' == k) = false from beq_eq_false_iff_ne.mpr this]
    have := ih (c ++ [(k, embed k)]) hnd.2 hfresh'
      (by simp only [List.length_append, List.length_singleton, List.length_cons,
            List.length_nil] at hlen ⊢; omega)
    rw [runCache] at this
    rw [this, List.append_assoc, List.map_cons]
    rfl

/-- C8: the keyword-embedding cache is bounded by its configured capacity
and evicts in LRU order.  In the association-list model of the
`OrderedDict` the head is the least-recently-used entry (hits are promoted
to the tail by `move_to_end`).  The four conjuncts state: (1) any sequence
of sequential `get_keyword_embedding` calls keeps a well-formed cache at
`≤ cap` entries; (2) a hit returns the cached value and promotes its key to
most-recently-used; (3) a miss at capacity evicts exactly the
least-recently-used (head) entry and appends the new one; (4) inserting
`cap + 1` distinct fresh keywords into an empty cache leaves exactly `cap`
entries, the survivors being all but the first-inserted keyword — the
first-inserted (never re-accessed) keyword is the one evicted. -/
theorem keyword_embedding_cache_bound_lru (embed : String → V) (cap : ℕ)
    (hcap : 1 ≤ cap) :
    (∀ (c : List (String × V)) (ks : List String), CacheWF c → c.length ≤ cap →
        (runCache embed cap c ks).length ≤ cap ∧ CacheWF (runCache embed cap c ks)) ∧
    (∀ (c : List (String × V)) (k : String) (v : V), c.lookup k = some v →
        get_keyword_embedding embed cap c k
          = (v, c.filter (fun p => p.1 != k) ++ [(k, v)])) ∧
    (∀ (c : List (String × V)) (k : String), c.lookup k = none → c.length = cap →
        get_keyword_embedding embed cap c k
          = (embed k, c.drop 1 ++ [(k, embed k)])) ∧
    (∀ ks : List String, ks.Nodup → ks.length = cap + 1 →
        runCache embed cap [] ks = (ks.drop 1).map (fun k => (k, embed k)) ∧
        (runCache embed cap [] ks).length = cap ∧
        (∀ k₀ ∈ ks.head?, k₀ ∉ (runCache embed cap [] ks).map Prod.fst)) := by
  refine ⟨?_, ?_, ?_, ?_⟩
  · intro c ks
    induction ks generalizing c with
    | nil => intro hwf hlen; exact ⟨hlen, hwf⟩
    | cons k rest ih =>
      intro hwf hlen
      rw [runCache, List.foldl_cons, ← runCache]
      exact ih _ (get_keyword_embedding_wf embed cap k hwf)
        (get_keyword_embedding_length embed cap hcap k hwf hlen)
  · intro c k v h
    exact get_keyword_embedding_hit embed cap h
  · intro c k h hlen
    rw [get_keyword_embedding_miss embed cap h, evict_oldest_cache_entry,
      if_pos (le_of_eq hlen.symm)]
  · intro ks hnd hlen
    rcases ks with _ | ⟨k₀, rest⟩
    · simp at hlen
    · have hrest_len : rest.length = cap := by simpa using hlen
      rw [List.nodup_cons] at hnd
      -- split the run into the first `cap` fresh inserts and the final one
      rcases List.eq_nil_or_concat rest with rfl | ⟨init, last, rfl⟩
      · simp only [List.length_nil] at hrest_len
        omega
      simp only [List.concat_eq_append] at hnd hlen hrest_len ⊢
      have hfill : runCache embed cap [] (k₀ :: init)
          = (k₀ :: init).map (fun k => (k, embed k)) := by
        have := runCache_fresh embed cap (k₀ :: init) []
          (by
            rw [List.nodup_cons]
            constructor
            · intro hmem
              exact hnd.1 (List.mem_append.mpr (Or.inl hmem))
            · exact (List.nodup_append.mp hnd.2).1)
          (fun k _ => rfl)
          (by
            simp only [List.length_append, List.length_singleton] at hrest_len
            simp only [List.length_nil, List.length_cons]
            omega)
        simpa using this
      have hsplit : runCache embed cap [] (k₀ :: (init ++ [last]))
          = (get_keyword_embedding embed cap
              (runCache embed cap [] (k₀ :: init)) last).2 := by
        rw [runCache, runCache]
        rw [show k₀ :: (init ++ [last]) = (k₀ :: init) ++ [last] by rfl]
        rw [List.foldl_append, List.foldl_cons, List.foldl_nil]
      have hlast_fresh :
          ((k₀ :: init).map (fun k => (k, embed k))).lookup last = none := by
        apply lookup_none_of_not_mem_keys
        intro hmem
        rw [map_fst_pair] at hmem
        rcases List.mem_cons.mp hmem with rfl | hmem'
        · exact hnd.1 (List.mem_append.mpr (Or.inr (List.mem_singleton_self _)))
        · exact (List.disjoint_of_nodup_append hnd.2) hmem'
            (List.mem_singleton_self _)
      have hfill_len : ((k₀ :: init).map (fun k => (k, embed k))).length = cap := by
        simp only [List.length_map, List.length_cons]
        simp only [List.length_append, List.length_singleton] at hrest_len
        omega
      have hres : runCache embed cap [] (k₀ :: (init ++ [last]))
          = ((k₀ :: init).map (fun k => (k, embed k))).drop 1
              ++ [(last, embed last)] := by
        rw [hsplit, hfill, get_keyword_embedding_miss embed cap hlast_fresh,
          evict_oldest_cache_entry, if_pos (le_of_eq hfill_len.symm)]
      have hdrop : ((k₀ :: init).map (fun k => (k, embed k))).drop 1
          = init.map (fun k => (k, embed k)) := rfl
      have hkey : ((k₀ :: (init ++ [last])).drop 1).map (fun k => (k, embed k))
          = init.map (fun k => (k, embed k)) ++ [(last, embed last)] := by
        simp
      refine ⟨?_, ?_, ?_⟩
      · rw [hres, hdrop, hkey]
      · rw [hres, hdrop]
        simp only [List.length_append, List.length_map, List.length_singleton]
        simp only [List.length_append, List.length_singleton] at hrest_len
        omega
      · intro x hx
        simp only [List.head?_cons, Option.mem_def, Option.some.injEq] at hx
        subst hx
        rw [hres, hdrop]
        intro hmem
        rw [List.map_append, map_fst_pair] at hmem
        rcases List.mem_append.mp hmem with hmem' | hmem'
        · exact hnd.1 (List.mem_append.mpr (Or.inl hmem'))
        · simp only [List.map_singleton, List.mem_singleton] at hmem'
          exact hnd.1 (hmem' ▸ List.mem_append.mpr (Or.inr (List.mem_singleton_self _)))

/-- Witness for `keyword_embedding_cache_bound_lru` at capacity `1` with a
constant embedding into `ℕ`. -/
theorem keyword_embedding_cache_bound_lru_witness :
    (1 : ℕ) ≤ 1 ∧
    ((∀ (c : List (String × ℕ)) (ks : List String), CacheWF c → c.length ≤ 1 →
        (runCache (fun _ => 0) 1 c ks).length ≤ 1 ∧
          CacheWF (runCache (fun _ => 0) 1 c ks)) ∧
    (∀ (c : List (String × ℕ)) (k : String) (v : ℕ), c.lookup k = some v →
        get_keyword_embedding (fun _ => 0) 1 c k
          = (v, c.filter (fun p => p.1 != k) ++ [(k, v)])) ∧
    (∀ (c : List (String × ℕ)) (k : String), c.lookup k = none → c.length = 1 →
        get_keyword_embedding (fun _ => 0) 1 c k
          = ((fun (_ : String) => 0) k, c.drop 1 ++ [(k, (fun (_ : String) => 0) k)])) ∧
    (∀ ks : List String, ks.Nodup → ks.length = 1 + 1 →
        runCache (fun _ => 0) 1 [] ks
            = (ks.drop 1).map (fun k => (k, (fun (_ : String) => (0:ℕ)) k)) ∧
        (runCache (fun _ => 0) 1 [] ks).length = 1 ∧
        (∀ k₀ ∈ ks.head?, k₀ ∉ (runCache (fun _ => (0:ℕ)) 1 [] ks).map Prod.fst))) :=
  ⟨by decide, keyword_embedding_cache_bound_lru (fun _ => (0:ℕ)) 1 (by decide)⟩

/-- The article payload passed to `calculate_score`
(`{"article_id": ..., "title": ..., "content": ...}`). -/
structure ArticlePayload where
  article_id : String
  title : String
  content : String
  deriving DecidableEq

/-- A keyword payload (`{"keyword_id": ..., "text": ..., "weight": ...,
"is_active": ...}`); the Python `dict.get` defaults (`weight = 1.0`,
`is_active = True`) are only exercised for items missing the key, which the
model represents by always carrying the resolved value. -/
structure KeywordPayload where
  keyword_id : String
  text : String
  weight : ℚ
  is_active : Bool
  deriving DecidableEq

/-- The ImportanceReason dict built by
`ImportanceScoreService._create_importance_reason` (lines 203-230). -/
structure ImportanceReasonItem where
  pk : String
  sk : String
  article_id : String
  keyword_id : String
  keyword_text : String
  similarity_score : ℚ
  contribution : ℚ
  deriving DecidableEq

def create_importance_reason (article : ArticlePayload) (keyword : KeywordPayload)
    (similarity contribution : ℚ) : ImportanceReasonItem :=
  { pk := "ARTICLE#" ++ article.article_id,
    sk := "REASON#" ++ keyword.keyword_id,
    article_id := article.article_id,
    keyword_id := keyword.keyword_id,
    keyword_text := keyword.text,
    similarity_score := similarity,
    contribution := contribution }

/-- One iteration of the keyword loop in
`ImportanceScoreService.calculate_score` (lines 251-272): skip inactive
keywords; otherwise fetch the keyword embedding through the cache, compute
`similarity * weight`, accumulate the total and append the reason. -/
def calculate_score_step (embed : String → V) (sim : V → V → ℚ) (cap : ℕ)
    (article_embedding : V) (article : ArticlePayload)
    (acc : ℚ × List ImportanceReasonItem × List (String × V))
    (keyword : KeywordPayload) :
    ℚ × List ImportanceReasonItem × List (String × V) :=
  if !keyword.is_active then acc
  else
    let res := get_keyword_embedding embed cap acc.2.2 keyword.text
    let similarity := sim article_embedding res.1
    let contribution := similarity * keyword.weight
    (acc.1 + contribution,
     acc.2.1 ++ [create_importance_reason article keyword similarity contribution],
     res.2)

/-- `ImportanceScoreService.calculate_score` (lines 232-277): embed the
joined `"{title} {content}"` text, then loop over the keywords, returning
`(total_score, reasons)` together with the final cache state. -/
def calculate_score (embed : String → V) (sim : V → V → ℚ) (cap : ℕ)
    (article : ArticlePayload) (keywords : List KeywordPayload)
    (c : List (String × V)) :
    ℚ × List ImportanceReasonItem × List (String × V) :=
  let article_text := article.title ++ " " ++ article.content
  let article_embedding := embed article_text
  keywords.foldl (calculate_score_step embed sim cap article_embedding article)
    (0, [], c)

theorem calculate_score_def (embed : String → V) (sim : V → V → ℚ) (cap : ℕ)
    (article : ArticlePayload) (keywords : List KeywordPayload)
    (c : List (String × V)) :
    calculate_score embed sim cap article keywords c
      = keywords.foldl (calculate_score_step embed sim cap
          (embed (article.title ++ " " ++ article.content)) article)
          (0, [], c) := rfl

theorem calculate_score_foldl (embed : String → V) (sim : V → V → ℚ) (cap : ℕ)
    (aEmb : V) (article : ArticlePayload) :
    ∀ (keywords : List KeywordPayload) (acc : ℚ)
      (rs : List ImportanceReasonItem) (c : List (String × V)),
      CacheConsistent embed c →
      (keywords.foldl (calculate_score_step embed sim cap aEmb article)
          (acc, rs, c)).1
        = acc + ((keywords.filter (fun kw => kw.is_active)).map
            (fun kw => sim aEmb (embed kw.text) * kw.weight)).sum ∧
      (keywords.foldl (calculate_score_step embed sim cap aEmb article)
          (acc, rs, c)).2.1
        = rs ++ (keywords.filter (fun kw => kw.is_active)).map
            (fun kw => create_importance_reason article kw
              (sim aEmb (embed kw.text)) (sim aEmb (embed kw.text) * kw.weight)) ∧
      CacheConsistent embed
        (keywords.foldl (calculate_score_step embed sim cap aEmb article)
          (acc, rs, c)).2.2 := by
  intro keywords
  induction keywords with
  | nil => intro acc rs c hcon; simpa using hcon
  | cons kw rest ih =>
    intro acc rs c hcon
    rw [List.foldl_cons]
    by_cases hact : kw.is_active
    · obtain ⟨hval, hcon'⟩ := get_keyword_embedding_consistent embed cap kw.text hcon
      have hstep : calculate_score_step embed sim cap aEmb article (acc, rs, c) kw
          = (acc + sim aEmb (embed kw.text) * kw.weight,
             rs ++ [create_importance_reason article kw (sim aEmb (embed kw.text))
               (sim aEmb (embed kw.text) * kw.weight)],
             (get_keyword_embedding embed cap c kw.text).2) := by
        rw [calculate_score_step, hact]
        simp only [Bool.not_true, Bool.false_eq_true, if_false, hval]
      rw [hstep]
      obtain ⟨h1, h2, h3⟩ := ih _ _ _ hcon'
      refine ⟨?_, ?_, h3⟩
      · rw [h1, List.filter_cons_of_pos (by simpa using hact), List.map_cons,
          List.sum_cons]
        ring
      · rw [h2, List.filter_cons_of_pos (by simpa using hact), List.map_cons,
          List.append_assoc]
        rfl
    · have hstep : calculate_score_step embed sim cap aEmb article (acc, rs, c) kw
          = (acc, rs, c) := by
        rw [calculate_score_step]
        simp [hact]
      rw [hstep]
      obtain ⟨h1, h2, h3⟩ := ih acc rs c hcon
      refine ⟨?_, ?_, h3⟩
      · rw [h1, List.filter_cons_of_neg (by simpa using hact)]
      · rw [h2, List.filter_cons_of_neg (by simpa using hact)]

/-- C7: score additivity.  For any article payload, keyword list and
consistent cache, `calculate_score` returns a total equal to the sum over
exactly the active keywords of `sim(article_embedding, keyword_embedding)
* weight` (exact in the rational model), and one ImportanceReason per
active keyword whose `contribution` equals that keyword's
`similarity * weight`; inactive keywords contribute nothing and produce no
reason record. -/
theorem calculate_score_additivity (embed : String → V) (sim : V → V → ℚ)
    (cap : ℕ) (article : ArticlePayload) (keywords : List KeywordPayload)
    (c : List (String × V)) (hcon : CacheConsistent embed c) :
    (calculate_score embed sim cap article keywords c).1
      = ((keywords.filter (fun kw => kw.is_active)).map
          (fun kw => sim (embed (article.title ++ " " ++ article.content))
            (embed kw.text) * kw.weight)).sum ∧
    (calculate_score embed sim cap article keywords c).2.1
      = (keywords.filter (fun kw => kw.is_active)).map
          (fun kw => create_importance_reason article kw
            (sim (embed (article.title ++ " " ++ article.content)) (embed kw.text))
            (sim (embed (article.title ++ " " ++ article.content)) (embed kw.text)
              * kw.weight)) := by
  obtain ⟨h1, h2, _⟩ := calculate_score_foldl embed sim cap
    (embed (article.title ++ " " ++ article.content)) article keywords 0 [] c hcon
  rw [calculate_score]
  exact ⟨by rw [h1]; ring, by rw [h2]; rfl⟩

/-- Witness for `calculate_score_additivity`: one active and one inactive
keyword, constant embedding into `ℕ`, constant similarity `1`. -/
theorem calculate_score_additivity_witness :
    (calculate_score (fun _ => (0:ℕ)) (fun _ _ => 1) 100
        (ArticlePayload.mk "a1" "t" "c")
        [KeywordPayload.mk "k1" "alpha" 2 true,
         KeywordPayload.mk "k2" "beta" 5 false] []).1
      = (([KeywordPayload.mk "k1" "alpha" 2 true,
           KeywordPayload.mk "k2" "beta" 5 false].filter
            (fun kw => kw.is_active)).map
          (fun kw => (fun (_ _ : ℕ) => (1:ℚ)) 0 0 * kw.weight)).sum ∧
    (calculate_score (fun _ => (0:ℕ)) (fun _ _ => 1) 100
        (ArticlePayload.mk "a1" "t" "c")
        [KeywordPayload.mk "k1" "alpha" 2 true,
         KeywordPayload.mk "k2" "beta" 5 false] []).2.1
      = ([KeywordPayload.mk "k1" "alpha" 2 true,
          KeywordPayload.mk "k2" "beta" 5 false].filter
            (fun kw => kw.is_active)).map
          (fun kw => create_importance_reason (ArticlePayload.mk "a1" "t" "c") kw 1
            (1 * kw.weight)) := by
  have := calculate_score_additivity (fun _ => (0:ℕ)) (fun _ _ => 1) 100
    (ArticlePayload.mk "a1" "t" "c")
    [KeywordPayload.mk "k1" "alpha" 2 true,
     KeywordPayload.mk "k2" "beta" 5 false] []
    (fun p hp => absurd hp (List.not_mem_nil p))
  simpa using this

/-- A stored keyword item as returned by `query_keywords`; Python's
`item.get("weight", 1.0)` / `item.get("is_active", True)` defaults are
resolved into the carried values, and a missing `keyword_id`/`text` is the
empty string (both falsy). -/
structure KeywordItem where
  keyword_id : String
  text : String
  weight : ℚ
  is_active : Bool
  deriving DecidableEq

/-- `ImportanceScoreService._extract_keyword_data` (lines 355-377): skip
items with a falsy `keyword_id` or `text`. -/
def extract_keyword_data (item : KeywordItem) : Option KeywordPayload :=
  if item.keyword_id = "" ∨ item.text = "" then none
  else some ⟨item.keyword_id, item.text, item.weight, item.is_active⟩

/-- `Article.update_importance_score` (src/backend/app/models/article.py
lines 291-302): validate the range, then set the score and stamp
`updated_at`. -/
def Article.update_importance_score (a : Article) (score : ℚ) (now : String) :
    Except String Article :=
  if score < 0 ∨ score > 1 then
    Except.error "Importance score must be between 0.0 and 1.0"
  else
    Except.ok { a with importance_score := score, updated_at := some now }

/-- The slice of the table that `recalculate_score` touches: article
records, keyword records, and ImportanceReason child records. -/
structure ScoreStore where
  articles : List Article
  keywords : List KeywordItem
  reasons : List ImportanceReasonItem

/-- `ImportanceScoreService.recalculate_score` (lines 285-325): look up the
article (a miss logs a warning and returns), collect the keyword payloads,
compute `(score, reasons)`, clamp the score with
`max(0.0, min(score, 1.0))`, store the updated article, then delete the
article's old ImportanceReasons and batch-write the new set. -/
def recalculate_score (embed : String → V) (sim : V → V → ℚ) (cap : ℕ)
    (store : ScoreStore) (c : List (String × V)) (article_id : String)
    (now : String) : Except String (ScoreStore × List (String × V)) :=
  match store.articles.find? (fun a => a.article_id == article_id) with
  | none => Except.ok (store, c)
  | some article =>
    let article_payload : ArticlePayload :=
      ⟨article.article_id, article.title, article.content⟩
    let keyword_payloads := store.keywords.filterMap extract_keyword_data
    let res := calculate_score embed sim cap article_payload keyword_payloads c
    let normalized_score := max 0 (min res.1 1)
    match article.update_importance_score normalized_score now with
    | Except.error e => Except.error e
    | Except.ok article' =>
      Except.ok
        ({ articles := store.articles.map
             (fun b => if b.article_id == article_id then article' else b),
           keywords := store.keywords,
           reasons := store.reasons.filter (fun r => r.article_id != article_id)
             ++ res.2.1 },
         res.2.2)

/-- C10: `recalculate_score` clamps the raw weighted sum into `[0, 1]`
before persisting it, while the ImportanceReason records written alongside
keep the unclamped contributions `similarity * weight`. -/
theorem recalculate_score_clamps (embed : String → V) (sim : V → V → ℚ)
    (cap : ℕ) (store : ScoreStore) (c : List (String × V))
    (article_id : String) (now : String) (hcon : CacheConsistent embed c)
    (article : Article)
    (hfind : store.articles.find? (fun a => a.article_id == article_id)
      = some article) :
    ∃ store' cache',
      recalculate_score embed sim cap store c article_id now
        = Except.ok (store', cache') ∧
      (let raw := (calculate_score embed sim cap
          ⟨article.article_id, article.title, article.content⟩
          (store.keywords.filterMap extract_keyword_data) c).1
       let clamped := max 0 (min raw 1)
       0 ≤ clamped ∧ clamped ≤ 1 ∧
       store'.articles = store.articles.map
         (fun b => if b.article_id == article_id then
           { article with importance_score := clamped, updated_at := some now }
           else b) ∧
       store'.reasons = store.reasons.filter (fun r => r.article_id != article_id)
         ++ ((store.keywords.filterMap extract_keyword_data).filter
              (fun kw => kw.is_active)).map
            (fun kw => create_importance_reason
              ⟨article.article_id, article.title, article.content⟩ kw
              (sim (embed (article.title ++ " " ++ article.content))
                (embed kw.text))
              (sim (embed (article.title ++ " " ++ article.content))
                (embed kw.text) * kw.weight))) := by
  have hclamp0 : (0:ℚ) ≤ max 0 (min (calculate_score embed sim cap
      ⟨article.article_id, article.title, article.content⟩
      (store.keywords.filterMap extract_keyword_data) c).1 1) := le_max_left _ _
  have hclamp1 : max 0 (min (calculate_score embed sim cap
      ⟨article.article_id, article.title, article.content⟩
      (store.keywords.filterMap extract_keyword_data) c).1 1) ≤ 1 :=
    max_le (by norm_num) (min_le_right _ _)
  have hupd : article.update_importance_score
      (max 0 (min (calculate_score embed sim cap
        ⟨article.article_id, article.title, article.content⟩
        (store.keywords.filterMap extract_keyword_data) c).1 1)) now
      = Except.ok { article with
          importance_score := max 0 (min (calculate_score embed sim cap
            ⟨article.article_id, article.title, article.content⟩
            (store.keywords.filterMap extract_keyword_data) c).1 1),
          updated_at := some now } := by
    rw [Article.update_importance_score,
      if_neg (by push_neg; exact ⟨hclamp0, hclamp1⟩)]
  refine ⟨ScoreStore.mk
      (store.articles.map (fun b => if b.article_id == article_id then
          { article with
            importance_score := max 0 (min (calculate_score embed sim cap
              ⟨article.article_id, article.title, article.content⟩
              (store.keywords.filterMap extract_keyword_data) c).1 1),
            updated_at := some now }
        else b))
      store.keywords
      (store.reasons.filter (fun r => r.article_id != article_id)
        ++ (calculate_score embed sim cap
            ⟨article.article_id, article.title, article.content⟩
            (store.keywords.filterMap extract_keyword_data) c).2.1),
    (calculate_score embed sim cap
      ⟨article.article_id, article.title, article.content⟩
      (store.keywords.filterMap extract_keyword_data) c).2.2,
    ?_, hclamp0, hclamp1, rfl, ?_⟩
  · rw [recalculate_score, hfind]
    simp only
    rw [hupd]
  · obtain ⟨_, h2, _⟩ := calculate_score_foldl embed sim cap
      (embed (article.title ++ " " ++ article.content))
      ⟨article.article_id, article.title, article.content⟩
      (store.keywords.filterMap extract_keyword_data) 0 [] c hcon
    show store.reasons.filter (fun r => r.article_id != article_id)
        ++ (calculate_score embed sim cap
            ⟨article.article_id, article.title, article.content⟩
            (store.keywords.filterMap extract_keyword_data) c).2.1 = _
    rw [calculate_score_def]
    simp only
    rw [h2, List.nil_append]

/-- Witness for `recalculate_score_clamps`: one article, one keyword of
weight `5` with constant similarity `1`, so the raw score `5` is clamped to
`1` while the stored reason keeps contribution `5`. -/

def clampWitnessArticle : Article :=
  ⟨"a1", "f1", "https://example.com/x", "t", "", "2024-01-01T00:00:00",
    false, false, 0, none, some 1, "2024-01-01T00:00:00", none⟩

def clampWitnessStore : ScoreStore :=
  ⟨[clampWitnessArticle], [⟨"k1", "alpha", 5, true⟩], []⟩

theorem recalculate_score_clamps_witness :
    CacheConsistent (fun _ => (0:ℕ)) ([] : List (String × ℕ)) ∧
    clampWitnessStore.articles.find? (fun a => a.article_id == "a1")
      = some clampWitnessArticle ∧
    (∃ store' cache',
      recalculate_score (fun _ => (0:ℕ)) (fun _ _ => 1) 100 clampWitnessStore []
          "a1" "2024-01-02T00:00:00"
        = Except.ok (store', cache') ∧
      (let raw := (calculate_score (fun _ => (0:ℕ)) (fun _ _ => 1) 100
          ⟨clampWitnessArticle.article_id, clampWitnessArticle.title,
            clampWitnessArticle.content⟩
          (clampWitnessStore.keywords.filterMap extract_keyword_data) []).1
       let clamped := max 0 (min raw 1)
       0 ≤ clamped ∧ clamped ≤ 1 ∧
       store'.articles = clampWitnessStore.articles.map
         (fun b => if b.article_id == "a1" then
           { clampWitnessArticle with
               importance_score := clamped
               updated_at := some "2024-01-02T00:00:00" }
           else b) ∧
       store'.reasons = clampWitnessStore.reasons.filter
           (fun r => r.article_id != "a1")
         ++ ((clampWitnessStore.keywords.filterMap extract_keyword_data).filter
              (fun kw => kw.is_active)).map
            (fun kw => create_importance_reason
              ⟨clampWitnessArticle.article_id, clampWitnessArticle.title,
                clampWitnessArticle.content⟩ kw
              ((fun (_ _ : ℕ) => (1:ℚ))
                ((fun (_ : String) => (0:ℕ))
                  (clampWitnessArticle.title ++ " " ++ clampWitnessArticle.content))
                ((fun (_ : String) => (0:ℕ)) kw.text))
              ((fun (_ _ : ℕ) => (1:ℚ))
                ((fun (_ : String) => (0:ℕ))
                  (clampWitnessArticle.title ++ " " ++ clampWitnessArticle.content))
                ((fun (_ : String) => (0:ℕ)) kw.text) * kw.weight)))) :=
  ⟨fun p hp => absurd hp (List.not_mem_nil p), by decide,
    recalculate_score_clamps (fun _ => (0:ℕ)) (fun _ _ => 1) 100 clampWitnessStore
      [] "a1" "2024-01-02T00:00:00" (fun p hp => absurd hp (List.not_mem_nil p))
      clampWitnessArticle (by decide)⟩

end Scoring

/-! ## Reason deletion (`DynamoDBClient.delete_importance_reasons_for_article`,
src/backend/app/utils/dynamodb_client.py lines 463-482)

Queries the reasons under `PK = ARTICLE#{article_id}` (all of which have
`SK = REASON#...` by construction) and batch-deletes them by key, returning
the count.  Removing the found items by their exact `(PK, SK)` keys removes
precisely the records whose `pk` matches, which the model expresses as a
filter on `pk`. -/

def delete_importance_reasons_for_article (reasons : List ImportanceReasonItem)
    (article_id : String) : ℕ × List ImportanceReasonItem :=
  let found := reasons.filter (fun r => r.pk == "ARTICLE#" ++ article_id)
  if found.isEmpty then (0, reasons)
  else (found.length, reasons.filter (fun r => !(r.pk == "ARTICLE#" ++ article_id)))

/-! ## Article service validation (`services/article_service.py`) -/

/-- `ArticleService.get_articles` (lines 29-71).  The storage client is the
delegation boundary: `query_articles_with_filters` is passed in as a
function, and the second component counts how many storage queries the call
issued (`0` on every validation failure — the error is raised before the
query).  Item conversion (`_convert_item_to_article`) happens after the
query and does not affect the validation behaviour, so items stay
abstract. -/
def get_articles {Item Cursor : Type}
    (query_articles_with_filters :
      String → Option String → ℤ → Option Cursor → List Item × Option Cursor)
    (sort_by : String) (filter_by : Option String) (limit : ℤ)
    (last_evaluated_key : Option Cursor) :
    Except String (List Item × Option Cursor) × ℕ :=
  if !(["published_at", "importance_score"].contains sort_by) then
    (Except.error "Invalid sort_by value", 0)
  else if !([none, some "unread", some "read", some "saved"].contains filter_by) then
    (Except.error "Invalid filter_by value", 0)
  else if limit ≤ 0 then
    (Except.error "Limit must be greater than 0", 0)
  else
    (Except.ok (query_articles_with_filters sort_by filter_by limit
      last_evaluated_key), 1)

/-! ## Cleanup service (`services/cleanup_service.py`) -/

/-- An article item as it appears in the GSI3/GSI4 index that a cleanup
sweep queries: its table key, its `article_id` attribute, and the sort-key
value (`GSI3SK` resp. `GSI4SK`) the key condition compares. -/
structure CleanupItem where
  pk : String
  sk : String
  article_id : String
  gsiSk : String
  deriving DecidableEq

/-- The slice of the table a cleanup sweep touches. -/
structure CleanupStore where
  items : List CleanupItem
  reasons : List ImportanceReasonItem

/-- `CleanupService._delete_articles_by_query` (lines 121-189): page through
the index (`limit = BATCH_SIZE`), for each item delete its
ImportanceReasons (when `article_id` is truthy) and collect its key,
flushing key batches of `BATCH_SIZE`.  The model folds each page's
reason-deletions and nets the page's chunked key flushes into one removal
per page (`fuel` bounds the page loop; it is passed as `store.items.length
+ 1`, which the shrinking store never exhausts). -/
def delete_articles_by_query (batch : ℕ) (cond : CleanupItem → Bool) :
    ℕ → CleanupStore → ℕ → ℕ → CleanupStore × ℕ × ℕ
  | 0, store, da, dr => (store, da, dr)
  | fuel + 1, store, da, dr =>
    let page := (store.items.filter cond).take batch
    if page.isEmpty then (store, da, dr)
    else
      let res := page.foldl
        (fun (acc : List ImportanceReasonItem × ℕ) item =>
          if item.article_id ≠ "" then
            let d := delete_importance_reasons_for_article acc.1 item.article_id
            (d.2, acc.2 + d.1)
          else acc)
        (store.reasons, 0)
      let keys := page.map (fun i => (i.pk, i.sk))
      let store' : CleanupStore :=
        { items := store.items.filter (fun i => !(keys.contains (i.pk, i.sk))),
          reasons := res.1 }
      if (store.items.filter cond).length ≤ batch then
        (store', da + page.length, dr + res.2)
      else
        delete_articles_by_query batch cond fuel store' (da + page.length)
          (dr + res.2)

/-- `CleanupService.delete_articles_by_age` (lines 70-93): validate
`days > 0` first, then sweep GSI3 for `GSI3SK < cutoff`.  `cutoff` stands
for `(now - timedelta(days)).isoformat()`; the third component records
whether any storage query was issued. -/
def delete_articles_by_age (batch : ℕ) (days : ℤ) (cutoff : String)
    (store : CleanupStore) : Except String (ℕ × ℕ) × CleanupStore × Bool :=
  if days ≤ 0 then
    (Except.error "days must be greater than 0", store, false)
  else
    let res := delete_articles_by_query batch
      (fun i => decide (i.gsiSk < cutoff ++ "Z")) (store.items.length + 1)
      store 0 0
    (Except.ok (res.2.1, res.2.2), res.1, true)

/-- `CleanupService.delete_read_articles` (lines 95-119): validate
`hours > 0` first, then sweep GSI4 for `GSI4SK < "true#{cutoff}Z"`. -/
def delete_read_articles (batch : ℕ) (hours : ℤ) (cutoff : String)
    (store : CleanupStore) : Except String (ℕ × ℕ) × CleanupStore × Bool :=
  if hours ≤ 0 then
    (Except.error "hours must be greater than 0", store, false)
  else
    let res := delete_articles_by_query batch
      (fun i => decide (i.gsiSk < "true#" ++ cutoff ++ "Z"))
      (store.items.length + 1) store 0 0
    (Except.ok (res.2.1, res.2.2), res.1, true)

/-- C9: validation before any I/O.  `ArticleService.get_articles` rejects
every invalid `sort_by`, `filter_by` or non-positive `limit` with a
`ValueError` and issues zero storage queries; `delete_articles_by_age` with
`days ≤ 0` and `delete_read_articles` with `hours ≤ 0` raise before any
query executes, leaving the store untouched. -/
theorem validation_before_io :
    (∀ (Item Cursor : Type)
      (queryFn : String → Option String → ℤ → Option Cursor →
        List Item × Option Cursor)
      (sort_by : String) (filter_by : Option String) (limit : ℤ)
      (lek : Option Cursor),
      (sort_by ∉ (["published_at", "importance_score"] : List String) ∨
        filter_by ∉ ([none, some "unread", some "read", some "saved"] :
          List (Option String)) ∨ limit ≤ 0) →
      ∃ e, get_articles queryFn sort_by filter_by limit lek
        = (Except.error e, 0)) ∧
    (∀ (batch : ℕ) (days : ℤ) (cutoff : String) (store : CleanupStore),
      days ≤ 0 →
      delete_articles_by_age batch days cutoff store
        = (Except.error "days must be greater than 0", store, false)) ∧
    (∀ (batch : ℕ) (hours : ℤ) (cutoff : String) (store : CleanupStore),
      hours ≤ 0 →
      delete_read_articles batch hours cutoff store
        = (Except.error "hours must be greater than 0", store, false)) := by
  refine ⟨?_, ?_, ?_⟩
  · intro Item Cursor queryFn sort_by filter_by limit lek h
    rw [get_articles]
    cases hs : (["published_at", "importance_score"] : List String).contains sort_by with
    | false =>
      rw [if_pos (by decide)]
      exact ⟨_, rfl⟩
    | true =>
      rw [if_neg (by decide)]
      cases hf : ([none, some "unread", some "read", some "saved"] :
          List (Option String)).contains filter_by with
      | false =>
        rw [if_pos (by decide)]
        exact ⟨_, rfl⟩
      | true =>
        rw [if_neg (by decide)]
        have hl : limit ≤ 0 := by
          rcases h with h | h | h
          · exact absurd (List.elem_iff.mp hs) h
          · exact absurd (List.elem_iff.mp hf) h
          · exact h
        rw [if_pos hl]
        exact ⟨_, rfl⟩
  · intro batch days cutoff store h
    rw [delete_articles_by_age, if_pos h]
  · intro batch hours cutoff store h
    rw [delete_read_articles, if_pos h]

/-- Witness for `validation_before_io`: an invalid `sort_by` and
non-positive retention windows on an empty store. -/
theorem validation_before_io_witness :
    (("bogus" : String) ∉ (["published_at", "importance_score"] : List String) ∨
      (none : Option String) ∉ ([none, some "unread", some "read", some "saved"] :
        List (Option String)) ∨ (10 : ℤ) ≤ 0) ∧
    (0 : ℤ) ≤ 0 ∧
    (∃ e, get_articles (fun (_ : String) (_ : Option String) (_ : ℤ)
        (_ : Option Unit) => (([] : List Unit), (none : Option Unit)))
        "bogus" none 10 none
      = (Except.error e, 0)) ∧
    delete_articles_by_age 25 0 "2024-01-01T00:00:00" (CleanupStore.mk [] [])
      = (Except.error "days must be greater than 0", CleanupStore.mk [] [], false) ∧
    delete_read_articles 25 0 "2024-01-01T00:00:00" (CleanupStore.mk [] [])
      = (Except.error "hours must be greater than 0", CleanupStore.mk [] [], false) :=
  ⟨Or.inl (by decide), by decide,
    validation_before_io.1 Unit Unit _ "bogus" none 10 none (Or.inl (by decide)),
    validation_before_io.2.1 25 0 "2024-01-01T00:00:00" (CleanupStore.mk [] [])
      (by decide),
    validation_before_io.2.2 25 0 "2024-01-01T00:00:00" (CleanupStore.mk [] [])
      (by decide)⟩

/-! ## Feed service cascade delete (`services/feed_service.py`) -/

/-- An article item as returned by the GSI5 query
`query_articles_by_feed_id` (partition `FEED#{feed_id}`); the queried item
carries the table key `PK = "ARTICLE#" ++ article_id`, `SK = "METADATA"`
along with its attributes. -/
structure FeedArticleItem where
  article_id : String
  feed_id : String
  deriving DecidableEq

/-- The `(PK, SK)` delete key collected for an article item. -/
def FeedArticleItem.key (a : FeedArticleItem) : String × String :=
  ("ARTICLE#" ++ a.article_id, "METADATA")

/-- The slice of the table `FeedService.delete_feed` touches: feed records
(identified by `feed_id`), article records, ImportanceReason records. -/
structure FeedStore where
  feeds : List String
  articles : List FeedArticleItem
  reasons : List ImportanceReasonItem

/-- Batch-deleting a list of `(PK, SK)` keys removes the matching article
records. -/
def removeArticleKeys (articles : List FeedArticleItem)
    (keys : List (String × String)) : List FeedArticleItem :=
  articles.filter (fun a => !(keys.contains a.key))

/-- The body of `FeedService._delete_feed_related_data` (lines 139-191):
for each queried item, delete its ImportanceReasons (when `article_id` is
truthy) counting them, accumulate its delete key, flush key batches of
`BATCH_SIZE` (counting flushed keys as deleted articles), and flush the
remainder after the loop. -/
def cascade_loop (batch : ℕ) :
    List FeedArticleItem → FeedStore → ℕ → ℕ → List (String × String) →
      FeedStore × ℕ × ℕ
  | [], store, da, dr, pending =>
    if pending.isEmpty then (store, da, dr)
    else ({ store with articles := removeArticleKeys store.articles pending },
          da + pending.length, dr)
  | item :: rest, store, da, dr, pending =>
    let d := if item.article_id ≠ "" then
        delete_importance_reasons_for_article store.reasons item.article_id
      else (0, store.reasons)
    let pending' := pending ++ [item.key]
    if batch ≤ pending'.length then
      cascade_loop batch rest
        { store with
            reasons := d.2
            articles := removeArticleKeys store.articles pending' }
        (da + pending'.length) (dr + d.1) []
    else
      cascade_loop batch rest { store with reasons := d.2 } da (dr + d.1) pending'

/-- `FeedService._delete_feed_related_data`: the GSI5 query is issued
without a `Limit`, so the single page returns every item of the feed's
partition and the `while` loop runs once; returns the store after deletion
together with `(deleted_articles, deleted_reasons)`. -/
def delete_feed_related_data (batch : ℕ) (store : FeedStore)
    (feed_id : String) : FeedStore × ℕ × ℕ :=
  cascade_loop batch (store.articles.filter (fun a => a.feed_id == feed_id))
    store 0 0 []

/-- `FeedService.delete_feed` (lines 118-137): a missing feed returns
`False`; otherwise cascade-delete the related data, delete the feed record
itself, and return `True`. -/
def delete_feed (batch : ℕ) (store : FeedStore) (feed_id : String) :
    FeedStore × Bool :=
  if !(store.feeds.contains feed_id) then (store, false)
  else
    let res := delete_feed_related_data batch store feed_id
    ({ res.1 with feeds := res.1.feeds.filter (fun f => !(f == feed_id)) }, true)

theorem article_pk_inj {a b : String}
    (h : ("ARTICLE#" ++ a : String) = "ARTICLE#" ++ b) : a = b := by
  have h' := congrArg String.data h
  rw [String.data_append, String.data_append] at h'
  have h'' := List.append_cancel_left h'
  cases a
  cases b
  exact congrArg String.mk h''

theorem filter_not_of_filter_nil {α : Type} (p : α → Bool) :
    ∀ l : List α, l.filter p = [] → l.filter (fun x => !(p x)) = l := by
  intro l
  induction l with
  | nil => simp
  | cons a rest ih =>
    intro h
    rw [List.filter_cons] at h ⊢
    cases hp : p a
    · simp only [hp, Bool.false_eq_true, if_false] at h
      simp [hp, ih h]
    · simp [hp] at h

theorem contains_append_pair (ks₁ ks₂ : List (String × String))
    (x : String × String) :
    (ks₁ ++ ks₂).contains x = (ks₁.contains x || ks₂.contains x) := by
  induction ks₁ with
  | nil => simp
  | cons k ks ih => simp [List.contains_cons, ih, Bool.or_assoc]

theorem removeArticleKeys_nil (l : List FeedArticleItem) :
    removeArticleKeys l [] = l :=
  List.filter_eq_self.mpr (fun _ _ => rfl)

theorem removeArticleKeys_append (l : List FeedArticleItem)
    (ks₁ ks₂ : List (String × String)) :
    removeArticleKeys (removeArticleKeys l ks₁) ks₂
      = removeArticleKeys l (ks₁ ++ ks₂) := by
  rw [removeArticleKeys, removeArticleKeys, removeArticleKeys,
    List.filter_filter]
  apply List.filter_congr
  intro a _
  rw [contains_append_pair]
  cases ks₁.contains a.key <;> cases ks₂.contains a.key <;> rfl

theorem dirfa_eq (reasons : List ImportanceReasonItem) (article_id : String) :
    delete_importance_reasons_for_article reasons article_id
      = ((reasons.filter (fun r => r.pk == "ARTICLE#" ++ article_id)).length,
         reasons.filter (fun r => !(r.pk == "ARTICLE#" ++ article_id))) := by
  rw [delete_importance_reasons_for_article]
  split
  · next h =>
    have hnil : reasons.filter (fun r => r.pk == "ARTICLE#" ++ article_id) = [] :=
      List.isEmpty_iff.mp h
    rw [hnil, filter_not_of_filter_nil _ _ hnil]
    rfl
  · rfl

theorem count_reasons_after_delete (l : List ImportanceReasonItem)
    {A B : String} (h : B ≠ A) :
    ((l.filter (fun r => !(r.pk == A))).filter (fun r => r.pk == B)).length
      = (l.filter (fun r => r.pk == B)).length := by
  rw [List.filter_filter]
  congr 1
  apply List.filter_congr
  intro r _
  by_cases hr : r.pk = B
  · rw [hr]
    simp [beq_eq_false_iff_ne.mpr h]
  · simp [beq_eq_false_iff_ne.mpr hr]

theorem cascade_loop_spec (batch R : ℕ) :
    ∀ (items : List FeedArticleItem) (store : FeedStore) (da dr : ℕ)
      (pending : List (String × String)),
      ((items.map (fun a => a.article_id)).Nodup) →
      (∀ a ∈ items, a.article_id ≠ "") →
      (∀ a ∈ items, (store.reasons.filter
          (fun r => r.pk == "ARTICLE#" ++ a.article_id)).length = R) →
      (cascade_loop batch items store da dr pending).1.feeds = store.feeds ∧
      (cascade_loop batch items store da dr pending).1.articles
        = removeArticleKeys store.articles
            (pending ++ items.map FeedArticleItem.key) ∧
      (cascade_loop batch items store da dr pending).1.reasons
        = store.reasons.filter (fun r =>
            !((items.map (fun a => "ARTICLE#" ++ a.article_id)).contains r.pk)) ∧
      (cascade_loop batch items store da dr pending).2.1
        = da + pending.length + items.length ∧
      (cascade_loop batch items store da dr pending).2.2
        = dr + items.length * R := by
  intro items
  induction items with
  | nil =>
    intro store da dr pending _ _ _
    rw [cascade_loop]
    split
    · next h =>
      have hp : pending = [] := List.isEmpty_iff.mp h
      subst hp
      refine ⟨rfl, ?_, ?_, by simp, by simp⟩
      · rw [List.map_nil, List.append_nil, removeArticleKeys_nil]
      · rw [List.map_nil]
        exact (List.filter_eq_self.mpr (fun _ _ => rfl)).symm
    · refine ⟨rfl, ?_, ?_, by simp, by simp⟩
      · rw [List.map_nil, List.append_nil]
      · rw [List.map_nil]
        exact (List.filter_eq_self.mpr (fun _ _ => rfl)).symm
  | cons item rest ih =>
    intro store da dr pending hnd hne hR
    have hid : item.article_id ≠ "" := hne item (List.mem_cons_self _ _)
    have hcount : (store.reasons.filter
        (fun r => r.pk == "ARTICLE#" ++ item.article_id)).length = R :=
      hR item (List.mem_cons_self _ _)
    rw [List.map_cons, List.nodup_cons] at hnd
    have hnd' : (rest.map (fun a => a.article_id)).Nodup := hnd.2
    have hne' : ∀ a ∈ rest, a.article_id ≠ "" :=
      fun a ha => hne a (List.mem_cons_of_mem _ ha)
    have hRne : ∀ a ∈ rest,
        ("ARTICLE#" ++ a.article_id : String) ≠ "ARTICLE#" ++ item.article_id := by
      intro a ha he
      exact hnd.1 (article_pk_inj he ▸ List.mem_map_of_mem _ ha)
    have hR' : ∀ a ∈ rest,
        ((store.reasons.filter
            (fun r => !(r.pk == "ARTICLE#" ++ item.article_id))).filter
          (fun r => r.pk == "ARTICLE#" ++ a.article_id)).length = R := by
      intro a ha
      rw [count_reasons_after_delete _ (hRne a ha)]
      exact hR a (List.mem_cons_of_mem _ ha)
    rw [cascade_loop]
    simp only [if_pos hid, dirfa_eq]
    by_cases hb : batch ≤ (pending ++ [item.key]).length
    · rw [if_pos hb]
      obtain ⟨ihf, iha, ihr, ihda, ihdr⟩ := ih
        { store with
            reasons := store.reasons.filter
              (fun r => !(r.pk == "ARTICLE#" ++ item.article_id))
            articles := removeArticleKeys store.articles (pending ++ [item.key]) }
        (da + (pending ++ [item.key]).length)
        (dr + (store.reasons.filter
          (fun r => r.pk == "ARTICLE#" ++ item.article_id)).length)
        [] hnd' hne' hR'
      refine ⟨ihf, ?_, ?_, ?_, ?_⟩
      · rw [iha]
        simp only
        rw [List.nil_append, removeArticleKeys_append]
        congr 1
        simp [List.append_assoc]
      · rw [ihr]
        simp only
        rw [List.filter_filter]
        apply List.filter_congr
        intro r _
        rw [List.map_cons, List.contains_cons, Bool.not_or, Bool.and_comm]
      · rw [ihda]
        simp only [List.length_append, List.length_singleton, List.length_nil,
          List.length_cons]
        omega
      · rw [ihdr, hcount, List.length_cons, Nat.succ_mul]
        omega
    · rw [if_neg hb]
      obtain ⟨ihf, iha, ihr, ihda, ihdr⟩ := ih
        { store with
            reasons := store.reasons.filter
              (fun r => !(r.pk == "ARTICLE#" ++ item.article_id)) }
        da
        (dr + (store.reasons.filter
          (fun r => r.pk == "ARTICLE#" ++ item.article_id)).length)
        (pending ++ [item.key]) hnd' hne' hR'
      refine ⟨ihf, ?_, ?_, ?_, ?_⟩
      · rw [iha]
        simp only
        congr 1
        simp [List.append_assoc]
      · rw [ihr]
        simp only
        rw [List.filter_filter]
        apply List.filter_congr
        intro r _
        rw [List.map_cons, List.contains_cons, Bool.not_or, Bool.and_comm]
      · rw [ihda]
        simp only [List.length_append, List.length_singleton, List.length_cons,
          List.length_nil]
        omega
      · rw [ihdr, hcount, List.length_cons, Nat.succ_mul]
        omega

/-- C6: cascade completeness.  For a stored feed with `K` articles (with
distinct, non-empty ids), each holding `R` ImportanceReason child records,
`FeedService.delete_feed` succeeds and afterwards no Article and no
ImportanceReason scoped to the feed remains, the Feed record itself is
gone, and `_delete_feed_related_data` reports exactly `K` article-deletes
and `K * R` reason-deletes. -/
theorem delete_feed_cascade (batch : ℕ) (store : FeedStore) (feed_id : String)
    (K R : ℕ)
    (hfeed : store.feeds.contains feed_id = true)
    (hK : (store.articles.filter (fun a => a.feed_id == feed_id)).length = K)
    (hnd : ((store.articles.filter (fun a => a.feed_id == feed_id)).map
        (fun a => a.article_id)).Nodup)
    (hne : ∀ a ∈ store.articles.filter (fun a => a.feed_id == feed_id),
        a.article_id ≠ "")
    (hR : ∀ a ∈ store.articles.filter (fun a => a.feed_id == feed_id),
        (store.reasons.filter
          (fun r => r.pk == "ARTICLE#" ++ a.article_id)).length = R) :
    (delete_feed_related_data batch store feed_id).2.1 = K ∧
    (delete_feed_related_data batch store feed_id).2.2 = K * R ∧
    (delete_feed batch store feed_id).2 = true ∧
    ((delete_feed batch store feed_id).1.articles.filter
        (fun a => a.feed_id == feed_id)) = [] ∧
    ((delete_feed batch store feed_id).1.reasons.filter (fun r =>
        ((store.articles.filter (fun a => a.feed_id == feed_id)).map
          (fun a => "ARTICLE#" ++ a.article_id)).contains r.pk)) = [] ∧
    (delete_feed batch store feed_id).1.feeds.contains feed_id = false := by
  obtain ⟨ihf, iha, ihr, ihda, ihdr⟩ := cascade_loop_spec batch R
    (store.articles.filter (fun a => a.feed_id == feed_id)) store 0 0 []
    hnd hne hR
  have hdf : delete_feed batch store feed_id
      = ({ (delete_feed_related_data batch store feed_id).1 with
            feeds := (delete_feed_related_data batch store feed_id).1.feeds.filter
              (fun f => !(f == feed_id)) }, true) := by
    rw [delete_feed, if_neg (by rw [hfeed]; decide)]
  refine ⟨?_, ?_, ?_, ?_, ?_, ?_⟩
  · rw [delete_feed_related_data, ihda, hK]
    simp
  · rw [delete_feed_related_data, ihdr, hK]
    simp
  · rw [hdf]
  · rw [hdf]
    simp only
    rw [delete_feed_related_data, iha, List.nil_append]
    rw [List.filter_eq_nil_iff]
    intro a ha hpred
    rw [removeArticleKeys, List.mem_filter] at ha
    have hmem : a ∈ store.articles.filter (fun b => b.feed_id == feed_id) :=
      List.mem_filter.mpr ⟨ha.1, hpred⟩
    have hkey : ((store.articles.filter
        (fun b => b.feed_id == feed_id)).map FeedArticleItem.key).contains a.key
        = true :=
      List.elem_iff.mpr (List.mem_map_of_mem _ hmem)
    rw [hkey] at ha
    exact absurd ha.2 (by decide)
  · rw [hdf]
    simp only
    rw [delete_feed_related_data, ihr, List.filter_filter, List.filter_eq_nil_iff]
    intro r _ hpred
    rcases hc : ((store.articles.filter (fun a => a.feed_id == feed_id)).map
        (fun a => "ARTICLE#" ++ a.article_id)).contains r.pk
    · rw [hc] at hpred
      simp at hpred
    · rw [hc] at hpred
      simp at hpred
  · rw [hdf]
    simp only
    rcases hc : ((delete_feed_related_data batch store feed_id).1.feeds.filter
        (fun f => !(f == feed_id))).contains feed_id
    · rfl
    · exfalso
      have hmem := List.elem_iff.mp hc
      have := List.of_mem_filter hmem
      simp at this

/-- A concrete store for the cascade witness: one feed, two articles, two
reasons per article. -/
def cascadeWitnessStore : FeedStore :=
  { feeds := ["f1"],
    articles := [⟨"a1", "f1"⟩, ⟨"a2", "f1"⟩],
    reasons :=
      [⟨"ARTICLE#a1", "REASON#k1", "a1", "k1", "alpha", 1, 1⟩,
       ⟨"ARTICLE#a1", "REASON#k2", "a1", "k2", "beta", 1, 1⟩,
       ⟨"ARTICLE#a2", "REASON#k1", "a2", "k1", "alpha", 1, 1⟩,
       ⟨"ARTICLE#a2", "REASON#k2", "a2", "k2", "beta", 1, 1⟩] }

/-- Witness for `delete_feed_cascade` at `K = 2`, `R = 2`. -/
theorem delete_feed_cascade_witness :
    cascadeWitnessStore.feeds.contains "f1" = true ∧
    (cascadeWitnessStore.articles.filter
      (fun a => a.feed_id == "f1")).length = 2 ∧
    ((delete_feed_related_data 25 cascadeWitnessStore "f1").2.1 = 2 ∧
     (delete_feed_related_data 25 cascadeWitnessStore "f1").2.2 = 2 * 2 ∧
     (delete_feed 25 cascadeWitnessStore "f1").2 = true ∧
     ((delete_feed 25 cascadeWitnessStore "f1").1.articles.filter
        (fun a => a.feed_id == "f1")) = [] ∧
     ((delete_feed 25 cascadeWitnessStore "f1").1.reasons.filter (fun r =>
        ((cascadeWitnessStore.articles.filter (fun a => a.feed_id == "f1")).map
          (fun a => "ARTICLE#" ++ a.article_id)).contains r.pk)) = [] ∧
     (delete_feed 25 cascadeWitnessStore "f1").1.feeds.contains "f1" = false) :=
  ⟨by decide, by decide,
    delete_feed_cascade 25 cascadeWitnessStore "f1" 2 2 (by decide) (by decide)
      (by decide) (by decide) (by decide)⟩

/-! ## Feed fetcher and link dedup (`services/feed_fetcher_service.py`,
`models/link_index.py`)

`hashlib.sha256(...).hexdigest()` is the out-of-scope cryptographic
primitive; it is modelled as an opaque function `sha : String → String`
(collision-freedom, where needed, would be an explicit hypothesis).
pydantic's `HttpUrl` round-trip `str(HttpUrl(link))` is modelled as the
identity on the already-validated link string. -/

/-- Python `str.lower()` on the character list. -/
def pyLower (s : String) : String := ⟨s.data.map Char.toLower⟩

/-- Python `str.strip()`: drop whitespace from both ends. -/
def pyStrip (s : String) : String :=
  ⟨((s.data.dropWhile Char.isWhitespace).reverse.dropWhile
      Char.isWhitespace).reverse⟩

/-- URL normalization shared by `LinkIndex.__init__`,
`LinkIndex.generate_hash_from_url` and `get_normalized_url`:
`url.lower().strip()`, then drop one trailing `"/"`. -/
def normalize_url (url : String) : String :=
  let u := pyStrip (pyLower url)
  if u.data.getLast? = some '/' then u.dropRight 1 else u

/-- The `LinkIndex` pydantic model (src/backend/app/models/link_index.py);
`url_hash` is auto-generated from the normalized link in `__init__`. -/
structure LinkIndex where
  link : String
  article_id : String
  url_hash : String
  created_at : String
  updated_at : Option String
  deriving DecidableEq

/-- `LinkIndex.create_from_article` (lines 126-138): build the index record
whose `url_hash` is the hash of the normalized link. -/
def LinkIndex.create_from_article (sha : String → String)
    (link article_id created_at : String) : LinkIndex :=
  { link := link, article_id := article_id,
    url_hash := sha (normalize_url link),
    created_at := created_at, updated_at := none }

/-- `LinkIndex.generate_hash_from_url` (lines 140-159). -/
def generate_hash_from_url (sha : String → String) (url : String) : String :=
  sha (normalize_url url)

def LinkIndex.generate_pk (li : LinkIndex) : String := "LINK#" ++ li.url_hash

/-- `LinkIndex.to_dynamodb_item` (lines 102-124): the base dump plus the
table key and entity type (`link` is already a string in the model). -/
def LinkIndex.to_dynamodb_item (li : LinkIndex) : List (String × AttrVal) :=
  let item : List (String × AttrVal) :=
    [("SCORE_PRECISION", .i 1000000),
     ("created_at", .s (li.created_at ++ "Z")),
     ("updated_at", match li.updated_at with | some t => .s (t ++ "Z") | none => .null),
     ("link", .s li.link),
     ("article_id", .s li.article_id),
     ("url_hash", .s li.url_hash)]
  let item := setk item "PK" (.s li.generate_pk)
  let item := setk item "SK" (.s "METADATA")
  setk item "EntityType" (.s "LinkIndex")

/-- A feed entry as `fetch_feed` reads it: the `link` and `title` fields
(absent or non-string modelled as `none`), the coalesced
summary/description/content value, and the parsed publication time (as an
ISO string; `none` when no date field parses). -/
structure FeedEntry where
  link : Option String
  title : Option String
  content : String
  published : Option String
  deriving DecidableEq

/-- `FeedFetcherService._extract_link` (lines 295-309): strip, and treat a
missing or empty value as absent. -/
def extract_link (e : FeedEntry) : Option String :=
  match e.link with
  | none => none
  | some s => let s' := pyStrip s; if s' = "" then none else some s'

/-- `FeedFetcherService._extract_title` (lines 311-328). -/
def extract_title (e : FeedEntry) : Option String :=
  match e.title with
  | none => none
  | some s => let s' := pyStrip s; if s' = "" then none else some s'

/-- `FeedFetcherService._extract_content` (lines 330-356): the coalesced
content source, truncated to 50,000 characters. -/
def extract_content (e : FeedEntry) : String := e.content.take 50000

/-- `FeedFetcherService._extract_published_at` (lines 358-375): the first
parsed date field, else `datetime.now()`. -/
def extract_published_at (e : FeedEntry) (now : String) : String :=
  e.published.getD now

/-- `FeedFetcherService._is_duplicate` (lines 377-392): hash the normalized
link and point-read `LINK#{hash}` / `METADATA` against the persisted store
(a set of `(PK, SK)` keys). -/
def is_duplicate (sha : String → String) (store : List (String × String))
    (link : String) : Bool :=
  store.contains ("LINK#" ++ generate_hash_from_url sha link, "METADATA")

/-- `FeedFetcherService._build_article` (lines 247-293): construct the
`Article`; the only validator that can fail on the already-extracted inputs
is the 500-character title bound (`title` is non-empty after trimming by
extraction, `content` is pre-truncated, and `HttpUrl` parsing is not
modelled).  No importance-score service is attached, so `importance_score`
keeps its `0.0` default; `set_ttl_for_article` stamps the TTL. -/
def build_article (feed_id : String) (e : FeedEntry) (link title : String)
    (article_id : String) (now : String) (ttl : ℤ) : Option Article :=
  if title.length > 500 then none
  else some
    { article_id := article_id, feed_id := feed_id, link := link,
      title := pyStrip title, content := extract_content e,
      published_at := extract_published_at e now,
      is_read := false, is_saved := false, importance_score := 0,
      read_at := none, ttl := some ttl, created_at := now, updated_at := none }

/-- `FeedFetchResult` (lines 56-75). -/
structure FeedFetchResult where
  feed_id : String
  total_entries : ℕ
  created_articles : ℕ
  skipped_duplicates : ℕ
  skipped_invalid : ℕ
  error_message : Option String
  deriving DecidableEq

/-- The loop state of `fetch_feed`: the three counters, the accumulated
`items_to_save`, and an index into the fresh-uuid supply `idOf`. -/
structure FetchAcc where
  created : ℕ
  dups : ℕ
  invalid : ℕ
  items : List (List (String × AttrVal))
  counter : ℕ

/-- One iteration of the entry loop in `FeedFetcherService.fetch_feed`
(lines 157-180): skip entries without link or title as invalid, skip
persisted duplicates (checked against the *store*, which the accumulated
`items_to_save` have not yet been written to), skip invalid articles, and
otherwise append the article item and its LinkIndex item. -/
def fetch_feed_step (sha : String → String) (idOf : ℕ → String)
    (now : String) (ttl : ℤ) (feed_id : String)
    (store : List (String × String)) (acc : FetchAcc) (entry : FeedEntry) :
    FetchAcc :=
  match extract_link entry, extract_title entry with
  | some link, some title =>
    if is_duplicate sha store link then
      { acc with dups := acc.dups + 1 }
    else
      match build_article feed_id entry link title (idOf acc.counter) now ttl with
      | none => { acc with invalid := acc.invalid + 1, counter := acc.counter + 1 }
      | some article =>
        let link_index := LinkIndex.create_from_article sha article.link
          article.article_id now
        { acc with
            created := acc.created + 1
            items := acc.items
              ++ [article.to_dynamodb_item ttl, link_index.to_dynamodb_item]
            counter := acc.counter + 1 }
  | _, _ => { acc with invalid := acc.invalid + 1 }

/-- `FeedFetcherService.fetch_feed` (lines 136-194): loop over the parsed
entries, then batch-write `items_to_save` (returned alongside the result;
the feed-metadata update touches only the feed record and is outside this
model). -/
def fetch_feed (sha : String → String) (idOf : ℕ → String) (now : String)
    (ttl : ℤ) (feed_id : String) (entries : List FeedEntry)
    (store : List (String × String)) :
    FeedFetchResult × List (List (String × AttrVal)) :=
  let res := entries.foldl (fetch_feed_step sha idOf now ttl feed_id store)
    ⟨0, 0, 0, [], 0⟩
  ({ feed_id := feed_id, total_entries := entries.length,
     created_articles := res.created, skipped_duplicates := res.dups,
     skipped_invalid := res.invalid, error_message := none }, res.items)

/-- Applying `batch_write_item(items)` to the key-set view of the store:
each written item's `(PK, SK)` key becomes present. -/
def batch_write_keys (store : List (String × String))
    (items : List (List (String × AttrVal))) : List (String × String) :=
  store ++ items.filterMap (fun it =>
    match it.lookup "PK", it.lookup "SK" with
    | some (.s p), some (.s s) => some (p, s)
    | _, _ => none)

theorem linkindex_item_keys (li : LinkIndex) :
    (li.to_dynamodb_item).lookup "PK" = some (.s li.generate_pk) ∧
    (li.to_dynamodb_item).lookup "SK" = some (.s "METADATA") := by
  rw [LinkIndex.to_dynamodb_item]
  constructor
  · rw [lookup_setk_ne "EntityType" "PK" _ (by decide),
      lookup_setk_ne "SK" "PK" _ (by decide), lookup_setk_self]
  · rw [lookup_setk_ne "EntityType" "SK" _ (by decide), lookup_setk_self]

theorem article_item_keys (a : Article) (t : ℤ) :
    (a.to_dynamodb_item t).lookup "PK" = some (.s a.generate_pk) ∧
    (a.to_dynamodb_item t).lookup "SK" = some (.s "METADATA") := by
  constructor <;>
    · simp only [Article.to_dynamodb_item]
      rw [lookup_ttl_step _ _ _ _ (by decide)]
      rcases hp : a.generate_gsi4_pk with _ | pk4 <;>
        rcases hs : a.generate_gsi4_sk with _ | sk4 <;>
          · simp only [hp, hs]
            simp only [lookup_setk_ne, lookup_setk_self, ne_eq, String.reduceEq,
              not_false_eq_true]
            try rfl

/-- C5 (amended): dedup idempotence across `fetch_feed` calls.  Ingesting a
fresh link creates exactly one Article item and one LinkIndex item, whose
key is written to the store; ingesting any URL with the same normalized
form against a store that already holds that LinkIndex is counted in
`skipped_duplicates`, creates no second Article and no second LinkIndex,
and raises no error.  (The original claim's extension to two entries
*within one* `fetch_feed` call fails, because `_is_duplicate` consults only
the persisted store while `items_to_save` are batch-written after the loop
— see the counterexample.) -/
theorem fetch_feed_dedup_idempotent (sha : String → String)
    (idOf idOf2 : ℕ → String) (now now2 : String) (ttl ttl2 : ℤ)
    (feed_id feed_id2 : String) (e e2 : FeedEntry)
    (store : List (String × String)) (link link2 title : String)
    (hlink : extract_link e = some link)
    (htitle : extract_title e = some title)
    (hlen : title.length ≤ 500)
    (hlink2 : extract_link e2 = some link2)
    (htitle2 : (extract_title e2).isSome = true)
    (hnorm : normalize_url link2 = normalize_url link)
    (hfresh : store.contains
      ("LINK#" ++ sha (normalize_url link), "METADATA") = false) :
    (fetch_feed sha idOf now ttl feed_id [e] store).1.created_articles = 1 ∧
    (fetch_feed sha idOf now ttl feed_id [e] store).1.skipped_duplicates = 0 ∧
    (fetch_feed sha idOf now ttl feed_id [e] store).1.skipped_invalid = 0 ∧
    (fetch_feed sha idOf now ttl feed_id [e] store).1.error_message = none ∧
    (fetch_feed sha idOf now ttl feed_id [e] store).2.length = 2 ∧
    (batch_write_keys store
        (fetch_feed sha idOf now ttl feed_id [e] store).2).contains
      ("LINK#" ++ sha (normalize_url link), "METADATA") = true ∧
    fetch_feed sha idOf2 now2 ttl2 feed_id2 [e2]
        (batch_write_keys store (fetch_feed sha idOf now ttl feed_id [e] store).2)
      = ({ feed_id := feed_id2, total_entries := 1, created_articles := 0,
           skipped_duplicates := 1, skipped_invalid := 0,
           error_message := none }, []) := by
  have hdup : is_duplicate sha store link = false := by
    rw [is_duplicate, generate_hash_from_url]
    exact hfresh
  have hbuild : build_article feed_id e link title (idOf 0) now ttl
      = some
        { article_id := idOf 0, feed_id := feed_id, link := link,
          title := pyStrip title, content := extract_content e,
          published_at := extract_published_at e now,
          is_read := false, is_saved := false, importance_score := 0,
          read_at := none, ttl := some ttl, created_at := now,
          updated_at := none } := by
    rw [build_article, if_neg (by omega)]
  have hff : fetch_feed sha idOf now ttl feed_id [e] store
      = ({ feed_id := feed_id, total_entries := 1, created_articles := 1,
           skipped_duplicates := 0, skipped_invalid := 0,
           error_message := none },
         [Article.to_dynamodb_item
            { article_id := idOf 0, feed_id := feed_id, link := link,
              title := pyStrip title, content := extract_content e,
              published_at := extract_published_at e now,
              is_read := false, is_saved := false, importance_score := 0,
              read_at := none, ttl := some ttl, created_at := now,
              updated_at := none } ttl,
          LinkIndex.to_dynamodb_item
            (LinkIndex.create_from_article sha link (idOf 0) now)]) := by
    rw [fetch_feed, List.foldl_cons, List.foldl_nil, fetch_feed_step,
      hlink, htitle]
    simp only [hdup, Bool.false_eq_true, if_false, hbuild]
    rfl
  obtain ⟨hapk, hask⟩ := article_item_keys
    { article_id := idOf 0, feed_id := feed_id, link := link,
      title := pyStrip title, content := extract_content e,
      published_at := extract_published_at e now,
      is_read := false, is_saved := false, importance_score := 0,
      read_at := none, ttl := some ttl, created_at := now,
      updated_at := none } ttl
  obtain ⟨hlpk, hlsk⟩ := linkindex_item_keys
    (LinkIndex.create_from_article sha link (idOf 0) now)
  have hwritten : (batch_write_keys store
      (fetch_feed sha idOf now ttl feed_id [e] store).2).contains
      ("LINK#" ++ sha (normalize_url link), "METADATA") = true := by
    rw [hff, batch_write_keys]
    simp only [List.filterMap_cons, hapk, hask, hlpk, hlsk, List.filterMap_nil]
    rw [contains_append_pair]
    simp [LinkIndex.generate_pk, LinkIndex.create_from_article]
  refine ⟨by simp [hff], by simp [hff], by simp [hff], by simp [hff],
    by simp [hff], hwritten, ?_⟩
  obtain ⟨t2, ht2⟩ := Option.isSome_iff_exists.mp htitle2
  have hdup2 : is_duplicate sha
      (batch_write_keys store (fetch_feed sha idOf now ttl feed_id [e] store).2)
      link2 = true := by
    rw [is_duplicate, generate_hash_from_url, hnorm]
    exact hwritten
  rw [fetch_feed, List.foldl_cons, List.foldl_nil, fetch_feed_step, hlink2, ht2]
  simp only [hdup2, if_true]
  rfl

/-- A concrete valid entry, used twice in one `fetch_feed` call. -/
def dupEntry : FeedEntry :=
  ⟨some "https://example.com/a", some "T", "", some "2024-01-01T00:00:00"⟩

/-- C5 counterexample: two entries with the *same* URL inside a single
`fetch_feed` call against an empty store are both created —
`created_articles = 2`, `skipped_duplicates = 0`, and four items (two
Articles and two LinkIndexes) are queued for writing — because
`_is_duplicate` reads only the persisted store and `items_to_save` are
written after the loop.  (The hash function is instantiated with the
identity; the store is empty, so no hash comparison influences the run.) -/
theorem fetch_feed_intra_call_duplicate_not_skipped :
    (fetch_feed (fun s => s) (fun n => "id" ++ toString n)
        "2024-01-01T00:00:00" 1 "f1" [dupEntry, dupEntry] []).1.created_articles
      = 2 ∧
    (fetch_feed (fun s => s) (fun n => "id" ++ toString n)
        "2024-01-01T00:00:00" 1 "f1" [dupEntry, dupEntry] []).1.skipped_duplicates
      = 0 ∧
    (fetch_feed (fun s => s) (fun n => "id" ++ toString n)
        "2024-01-01T00:00:00" 1 "f1" [dupEntry, dupEntry] []).2.length = 4 := by
  refine ⟨?_, ?_, ?_⟩ <;> decide

/-- A concrete valid entry with a link that normalizes like `dupEntry2w`'s. -/
def freshEntryW : FeedEntry :=
  ⟨some "https://Example.com/B", some "T1", "body", some "2024-01-01T00:00:00"⟩

/-- A second entry whose URL differs only in case and a trailing slash. -/
def dupEntryW : FeedEntry :=
  ⟨some "https://example.com/b/", some "T2", "body2", some "2024-01-02T00:00:00"⟩

/-- Witness for `fetch_feed_dedup_idempotent`: ingest `freshEntryW` into an
empty store, then ingest `dupEntryW` (same normalized URL) against the
written store. -/
theorem fetch_feed_dedup_idempotent_witness :
    extract_link freshEntryW = some "https://Example.com/B" ∧
    extract_title freshEntryW = some "T1" ∧
    ("T1" : String).length ≤ 500 ∧
    extract_link dupEntryW = some "https://example.com/b/" ∧
    (extract_title dupEntryW).isSome = true ∧
    normalize_url "https://example.com/b/" = normalize_url "https://Example.com/B" ∧
    ([] : List (String × String)).contains
      ("LINK#" ++ (fun s => s) (normalize_url "https://Example.com/B"),
        "METADATA") = false ∧
    ((fetch_feed (fun s => s) (fun n => "w" ++ toString n) "2024-01-01T00:00:00"
        1 "f1" [freshEntryW] []).1.created_articles = 1 ∧
      (fetch_feed (fun s => s) (fun n => "w" ++ toString n) "2024-01-01T00:00:00"
        1 "f1" [freshEntryW] []).1.skipped_duplicates = 0 ∧
      (fetch_feed (fun s => s) (fun n => "w" ++ toString n) "2024-01-01T00:00:00"
        1 "f1" [freshEntryW] []).1.skipped_invalid = 0 ∧
      (fetch_feed (fun s => s) (fun n => "w" ++ toString n) "2024-01-01T00:00:00"
        1 "f1" [freshEntryW] []).1.error_message = none ∧
      (fetch_feed (fun s => s) (fun n => "w" ++ toString n) "2024-01-01T00:00:00"
        1 "f1" [freshEntryW] []).2.length = 2 ∧
      (batch_write_keys []
          (fetch_feed (fun s => s) (fun n => "w" ++ toString n)
            "2024-01-01T00:00:00" 1 "f1" [freshEntryW] []).2).contains
        ("LINK#" ++ (fun s => s) (normalize_url "https://Example.com/B"),
          "METADATA") = true ∧
      fetch_feed (fun s => s) (fun n => "w2" ++ toString n) "2024-01-02T00:00:00"
          2 "f2" [dupEntryW]
          (batch_write_keys []
            (fetch_feed (fun s => s) (fun n => "w" ++ toString n)
              "2024-01-01T00:00:00" 1 "f1" [freshEntryW] []).2)
        = ({ feed_id := "f2", total_entries := 1, created_articles := 0,
             skipped_duplicates := 1, skipped_invalid := 0,
             error_message := none }, [])) :=
  ⟨by decide, by decide, by decide, by decide, by decide, by decide, by decide,
    fetch_feed_dedup_idempotent (fun s => s) (fun n => "w" ++ toString n)
      (fun n => "w2" ++ toString n) "2024-01-01T00:00:00" "2024-01-02T00:00:00"
      1 2 "f1" "f2" freshEntryW dupEntryW [] "https://Example.com/B"
      "https://example.com/b/" "T1" (by decide) (by decide) (by decide)
      (by decide) (by decide) (by decide) (by decide)⟩

end RssReader
